import Mathlib

/-! # Real-time video processing: interaction state, CPU filters, texture upload

A shallow embedding of `src/main.cpp`, `src/common/Texture.cpp` and `src/common/Shader.cpp`.

Conventions of the embedding
* A finite `float` or `double` value is the rational (`ℚ`) it denotes. The `float` and
  `double` operations of the callbacks and of `glm::radians` round their exact result with
  `roundToFloat` and `roundToDouble` (IEEE 754, nearest, ties to even); a literal such as
  `0.1f` is `roundToFloat (1 / 10)`. Infinities and NaN (overflow, division by zero) are
  not represented. The matrix arithmetic of `cpuTransform` is kept exact.
* An image (`cv::Mat` of type `CV_8UC3`) is its size together with a sample function
  `px row col channel`; only `row < rows`, `col < cols`, `channel < 3` are meaningful.
* The globals `appState` and `window` are passed explicitly.
* Library routines (GLFW, OpenGL, OpenCV) are modelled by their documented behaviour.
-/

namespace VideoApp

/-! ## Global interaction state (`main.cpp`, lines 40-62) -/

/-- The `enum FilterMode` of `main.cpp`. -/
inductive FilterMode where
  | FILTER_NONE
  | FILTER_PIXELATE
  | FILTER_GRAYSCALE
  deriving DecidableEq, Repr

/-- The C enumerator value of a `FilterMode`, that is `(int)appState.currentFilter`. -/
def FilterMode.toInt : FilterMode → Int
  | .FILTER_NONE => 0
  | .FILTER_PIXELATE => 1
  | .FILTER_GRAYSCALE => 2

/-- The `enum ProcessingMode` of `main.cpp`. -/
inductive ProcessingMode where
  | CPU_MODE
  | GPU_MODE
  deriving DecidableEq, Repr

/-- A `glm::vec2`. -/
structure Vec2 where
  x : ℚ
  y : ℚ
  deriving DecidableEq, Repr

/-- The vector `glm::vec2(0.0f)`. -/
def Vec2.zero : Vec2 := ⟨0, 0⟩

/-- The `struct AppState` of `main.cpp`; `frameTimes` (wall-clock samples) is left out. -/
structure AppState where
  currentFilter : FilterMode
  processingMode : ProcessingMode
  translation : Vec2
  rotation : ℚ
  scale : ℚ
  isDragging : Bool
  lastMousePos : Vec2
  frameCount : Nat
  deriving DecidableEq, Repr

/-- The default member initialisers of `AppState`; `lastMousePos` has none, so its
starting value `garbage` is whatever the memory holds. -/
def AppState.initial (garbage : Vec2) : AppState where
  currentFilter := .FILTER_NONE
  processingMode := .GPU_MODE
  translation := Vec2.zero
  rotation := 0
  scale := 1
  isDragging := false
  lastMousePos := garbage
  frameCount := 0

/-! ## GLFW constants and window queries -/

def GLFW_RELEASE : Int := 0
def GLFW_PRESS : Int := 1
def GLFW_REPEAT : Int := 2
def GLFW_MOUSE_BUTTON_LEFT : Int := 0
def GLFW_KEY_SPACE : Int := 32
def GLFW_KEY_1 : Int := 49
def GLFW_KEY_2 : Int := 50
def GLFW_KEY_3 : Int := 51
def GLFW_KEY_C : Int := 67
def GLFW_KEY_P : Int := 80
def GLFW_KEY_R : Int := 82
def GLFW_KEY_ESCAPE : Int := 256

/-- The state of a key that was released but not yet polled while sticky keys are on
(`_GLFW_STICK` of GLFW). -/
def GLFW_STICK : Int := 3

/-- What GLFW holds for `window` at the time of a callback: the cursor position
`glfwGetCursorPos` reports (as a `glm::vec2` stores it), the state of the R key, and the
size `glfwGetWindowSize` reports. `keyR` is `GLFW_PRESS` while R is held, `GLFW_RELEASE`
while it is not, and, because `main` switches `GLFW_STICKY_KEYS` on (`main.cpp`, line
100), `GLFW_STICK` from the release of R until the next `glfwGetKey` for R. -/
structure Window where
  cursorX : ℚ
  cursorY : ℚ
  keyR : Int
  width : Int
  height : Int
  deriving DecidableEq, Repr

/-- The answer of `glfwGetKey(window, GLFW_KEY_R)`: a key in state `GLFW_STICK` is
reported as pressed (the call also puts it back to `GLFW_RELEASE`, which shows in the
window of later callbacks). -/
def glfwGetKey (w : Window) : Int :=
  if w.keyR = GLFW_STICK then GLFW_PRESS else w.keyR

/-! ## IEEE 754 rounding -/

/-- The quotient `s / n` rounded to the nearest integer, ties to even (0 for `n = 0`). -/
def roundHalfEven (s n : Nat) : Nat :=
  if n = 0 then 0
  else if 2 * (s % n) < n then s / n
  else if n < 2 * (s % n) then s / n + 1
  else if (s / n) % 2 = 0 then s / n
  else s / n + 1

/-- Number of halvings that bring `n` below 2, at most `fuel`. -/
def floorLog2Aux : Nat → Nat → Nat
  | 0, _ => 0
  | fuel + 1, n => if 2 ≤ n then floorLog2Aux fuel (n / 2) + 1 else 0

/-- The integer part of the binary logarithm of `n` (0 for `n = 0`). -/
def floorLog2 (n : Nat) : Nat := floorLog2Aux n n

/-- The exponent `e` with `2 ^ e ≤ n / d < 2 ^ (e + 1)`, for `n, d > 0`. -/
def binaryExponent (n d : Nat) : Int :=
  let e : Int := (floorLog2 n : Int) - (floorLog2 d : Int)
  if n * 2 ^ (-e).toNat < d * 2 ^ e.toNat then e - 1 else e

/-- Rounding of `q` to the binary format with `p` significand bits and least normal
exponent `emin` (subnormals included): the nearest value of the format, ties to the even
significand. The exponent is not bounded above: where IEEE 754 gives an infinity the
result is the rounded value with the same number of significand bits. -/
def roundBinary (p : Nat) (emin : Int) (q : ℚ) : ℚ :=
  if q = 0 then 0
  else
    let n := q.num.natAbs
    let d := q.den
    let e := max (binaryExponent n d) emin
    let k : Int := e - ((p : Int) - 1)
    let m := roundHalfEven (n * 2 ^ (-k).toNat) (d * 2 ^ k.toNat)
    let r : ℚ := mkRat (m * 2 ^ k.toNat) (2 ^ (-k).toNat)
    if q < 0 then -r else r

/-- Rounding to `float` (binary32): the result of a `float` operation with exact result
`q`, and of the conversion of `q` to `float`. -/
def roundToFloat (q : ℚ) : ℚ := roundBinary 24 (-126) q

/-- Rounding to `double` (binary64). -/
def roundToDouble (q : ℚ) : ℚ := roundBinary 53 (-1022) q

/-- The function `glm::clamp(x, minVal, maxVal)`, which is `min(max(x, minVal), maxVal)`. -/
def clamp (x minVal maxVal : ℚ) : ℚ := min (max x minVal) maxVal

/-! ## Callbacks (`main.cpp`, lines 303-375) -/

/-- The function `keyCallback`. The result pairs the new `appState` with the flag passed
to `glfwSetWindowShouldClose` (`shouldClose` is the flag before the call). -/
def keyCallback (app : AppState) (shouldClose : Bool) (key _scancode action _mods : Int) :
    AppState × Bool :=
  if action = GLFW_PRESS then
    if key = GLFW_KEY_ESCAPE then (app, true)
    else if key = GLFW_KEY_1 then ({ app with currentFilter := .FILTER_NONE }, shouldClose)
    else if key = GLFW_KEY_2 then ({ app with currentFilter := .FILTER_PIXELATE }, shouldClose)
    else if key = GLFW_KEY_3 then ({ app with currentFilter := .FILTER_GRAYSCALE }, shouldClose)
    else if key = GLFW_KEY_C then
      ({ app with processingMode :=
            if app.processingMode = .GPU_MODE then .CPU_MODE else .GPU_MODE }, shouldClose)
    else if key = GLFW_KEY_SPACE then
      ({ app with translation := Vec2.zero, rotation := 0, scale := 1 }, shouldClose)
    else if key = GLFW_KEY_P then (app, shouldClose)
    else (app, shouldClose)
  else (app, shouldClose)

/-- The function `mouseButtonCallback`. -/
def mouseButtonCallback (w : Window) (app : AppState) (button action _mods : Int) : AppState :=
  if button = GLFW_MOUSE_BUTTON_LEFT then
    if action = GLFW_PRESS then
      { app with isDragging := true, lastMousePos := ⟨w.cursorX, w.cursorY⟩ }
    else if action = GLFW_RELEASE then
      { app with isDragging := false }
    else app
  else app

/-- The function `cursorPosCallback`. Every `float` operation rounds: the conversion of
`xpos`, `ypos` and of the `int` window size, the subtraction, the product with `0.5f`, the
quotient, the product with `2.0f`, and the `+=` and `-=`. For a window of width or height
0 the code stores an infinity or a NaN, which this model does not represent: what is
proved of the translation branch assumes a positive size. -/
def cursorPosCallback (w : Window) (app : AppState) (xpos ypos : ℚ) : AppState :=
  if app.isDragging then
    let currentPos : Vec2 := ⟨roundToFloat xpos, roundToFloat ypos⟩
    let delta : Vec2 :=
      ⟨roundToFloat (currentPos.x - app.lastMousePos.x),
       roundToFloat (currentPos.y - app.lastMousePos.y)⟩
    let app1 : AppState :=
      if glfwGetKey w = GLFW_PRESS then
        { app with rotation := roundToFloat (app.rotation + roundToFloat (delta.x * (1 / 2))) }
      else
        { app with translation :=
            ⟨roundToFloat (app.translation.x
                + roundToFloat (roundToFloat (delta.x / roundToFloat (w.width : ℚ)) * 2)),
             roundToFloat (app.translation.y
                - roundToFloat (roundToFloat (delta.y / roundToFloat (w.height : ℚ)) * 2))⟩ }
    { app1 with lastMousePos := currentPos }
  else app

/-- The function `scrollCallback`. The sum `scale + yoffset * 0.1f` is evaluated in
`double` (`yoffset` is a `double`) and converted to `float` by the assignment. -/
def scrollCallback (app : AppState) (_xoffset yoffset : ℚ) : AppState :=
  let sum : ℚ := roundToDouble (app.scale + roundToDouble (yoffset * roundToFloat (1 / 10)))
  let app1 : AppState := { app with scale := roundToFloat sum }
  { app1 with scale := clamp app1.scale (roundToFloat (1 / 10)) 5 }

/-- An input event as GLFW delivers it during `glfwPollEvents`. -/
inductive Event where
  | key (key scancode action mods : Int)
  | mouseButton (button action mods : Int)
  | cursorPos (xpos ypos : ℚ)
  | scroll (xoffset yoffset : ℚ)
  deriving DecidableEq, Repr

/-- The globals the callbacks can change: `appState` and the close flag of `window`. -/
structure Globals where
  app : AppState
  shouldClose : Bool
  deriving DecidableEq, Repr

/-- Delivery of one event to the callback registered for it (`main.cpp`, lines 105-108);
`w` is the window as GLFW reports it during that callback. -/
def dispatch (g : Globals) (we : Window × Event) : Globals :=
  match we.2 with
  | .key key scancode action mods =>
      let r := keyCallback g.app g.shouldClose key scancode action mods
      ⟨r.1, r.2⟩
  | .mouseButton button action mods =>
      { g with app := mouseButtonCallback we.1 g.app button action mods }
  | .cursorPos xpos ypos => { g with app := cursorPosCallback we.1 g.app xpos ypos }
  | .scroll xoffset yoffset => { g with app := scrollCallback g.app xoffset yoffset }

/-- Delivery of a finite sequence of events, oldest first. -/
def pollEvents (g : Globals) (evs : List (Window × Event)) : Globals :=
  evs.foldl dispatch g

/-! ## Images and the OpenCV routines used by the filters -/

/-- A `cv::Mat` holding 8-bit samples: `px row col channel`. -/
structure Mat where
  rows : Nat
  cols : Nat
  px : Nat → Nat → Nat → Nat

/-- The method `cv::Mat::empty()`: no element. -/
def Mat.empty (m : Mat) : Bool := m.rows == 0 || m.cols == 0

/-- The call `cv::flip(src, dst, 0)`: flip around the x-axis (row `y` comes from row
`rows - 1 - y`). -/
def flip (m : Mat) : Mat :=
  { m with px := fun y x c => m.px (m.rows - 1 - y) x c }

/-- The call `cv::cvtColor(src, dst, cv::COLOR_BGR2RGB)`: channels 0 and 2 trade places. -/
def cvtColorBGR2RGB (m : Mat) : Mat :=
  { m with px := fun y x c => m.px y x (if c = 0 then 2 else if c = 2 then 0 else c) }

/-- The sum `g 0 + ... + g (n - 1)`. -/
def sumRange : Nat → (Nat → Nat) → Nat
  | 0, _ => 0
  | n + 1, g => sumRange n g + g n

/-- Sum of channel `c` over the region `cv::Rect(x, y, w, h)` of `m`, the per-channel
accumulator of `cv::mean(m(roi))`. -/
def roiSum (m : Mat) (x y w h c : Nat) : Nat :=
  sumRange h (fun dy => sumRange w (fun dx => m.px (y + dy) (x + dx) c))

/-- The rounding `cvRound` (nearest integer, ties to even) of the quotient `s / n`. -/
def cvRoundDiv (s n : Nat) : Nat :=
  if n = 0 then 0
  else if 2 * (s % n) < n then s / n
  else if n < 2 * (s % n) then s / n + 1
  else if (s / n) % 2 = 0 then s / n
  else s / n + 1

/-- The 8-bit sample stored for a region whose channel sum is `s` over `n` pixels:
`cv::saturate_cast<uchar>` of the channel mean `s / n` that `cv::mean` returns. -/
def meanSample (s n : Nat) : Nat := min 255 (cvRoundDiv s n)

/-- The assignment `m(cv::Rect(x, y, w, h)) = v`: every pixel of the region gets the
samples `v`, the other pixels keep theirs. -/
def setRoi (m : Mat) (x y w h : Nat) (v : Nat → Nat) : Mat :=
  { m with px := fun r c ch =>
      if y ≤ r ∧ r < y + h ∧ x ≤ c ∧ c < x + w then v ch else m.px r c ch }

/-! ## CPU filters (`main.cpp`, lines 285-300) -/

/-- Body of the inner loop of `applyPixelationCPU` for the tile starting at `(x, y)`. -/
def pixelateTile (frame : Mat) (pixelSize x y : Nat) : Mat :=
  let w := min pixelSize (frame.cols - x)
  let h := min pixelSize (frame.rows - y)
  let avgColor : Nat → Nat := fun c => meanSample (roiSum frame x y w h c) (w * h)
  setRoi frame x y w h avgColor

/-- The loop `for (int x = ...; x < frame.cols; x += pixelSize)` of `applyPixelationCPU`,
started at `x`; `none` when `fuel` iterations did not reach the exit. -/
def pixelateCols (pixelSize y : Nat) : Nat → Nat → Mat → Option Mat
  | 0, _, _ => none
  | fuel + 1, x, frame =>
      if x < frame.cols then
        pixelateCols pixelSize y fuel (x + pixelSize) (pixelateTile frame pixelSize x y)
      else some frame

/-- The loop `for (int y = ...; y < frame.rows; y += pixelSize)` of `applyPixelationCPU`,
started at `y`; `none` when `fuel` iterations did not reach the exit. -/
def pixelateRows (pixelSize : Nat) : Nat → Nat → Mat → Option Mat
  | 0, _, _ => none
  | fuel + 1, y, frame =>
      if y < frame.rows then
        match pixelateCols pixelSize y (frame.cols + 1) 0 frame with
        | none => none
        | some frame1 => pixelateRows pixelSize fuel (y + pixelSize) frame1
      else some frame

/-- The function `applyPixelationCPU` (in place in the source, here returning the new
frame). With `pixelSize = 0` and a non-empty frame the source loops for ever: `none`. -/
def applyPixelationCPU (frame : Mat) (pixelSize : Nat) : Option Mat :=
  pixelateRows pixelSize (frame.rows + 1) 0 frame

/-- A single-channel 8-bit image (`CV_8UC1`). -/
structure GrayMat where
  rows : Nat
  cols : Nat
  px : Nat → Nat → Nat

/-- Fixed-point luminance weights of OpenCV for 8-bit images: the weights of blue, green
and red scaled by `2 ^ shift`. -/
structure GrayCoeffs where
  b2y : Nat
  g2y : Nat
  r2y : Nat
  shift : Nat
  deriving DecidableEq, Repr

/-- The weights `0.114, 0.587, 0.299` in 14-bit fixed point (`B2Y`, `G2Y`, `R2Y`,
`yuv_shift` of OpenCV). -/
def GrayCoeffs.opencv14 : GrayCoeffs := ⟨1868, 9617, 4899, 14⟩

/-- The same weights in 15-bit fixed point (`BY15`, `GY15`, `RY15`, `gray_shift`). -/
def GrayCoeffs.opencv15 : GrayCoeffs := ⟨3735, 19235, 9798, 15⟩

/-- Luminance of one pixel: `CV_DESCALE(b * B2Y + g * G2Y + r * R2Y, shift)`, where
`CV_DESCALE(v, n)` is `(v + (1 << (n - 1))) >> n`. -/
def luminance (k : GrayCoeffs) (b g r : Nat) : Nat :=
  (b * k.b2y + g * k.g2y + r * k.r2y + 2 ^ (k.shift - 1)) / 2 ^ k.shift

/-- The call `cv::cvtColor(src, dst, cv::COLOR_BGR2GRAY)`. -/
def cvtColorBGR2GRAY (k : GrayCoeffs) (m : Mat) : GrayMat :=
  { rows := m.rows, cols := m.cols,
    px := fun y x => luminance k (m.px y x 0) (m.px y x 1) (m.px y x 2) }

/-- The call `cv::cvtColor(src, dst, cv::COLOR_GRAY2BGR)`: the gray value in every channel. -/
def cvtColorGRAY2BGR (g : GrayMat) : Mat :=
  { rows := g.rows, cols := g.cols, px := fun y x _ => g.px y x }

/-- The function `applyGrayscaleCPU`. -/
def applyGrayscaleCPU (k : GrayCoeffs) (frame : Mat) : Mat :=
  cvtColorGRAY2BGR (cvtColorBGR2GRAY k frame)

/-! ## Geometric transformation on the CPU (`main.cpp`, lines 182-195) -/

/-- A 2x3 matrix of `double`, as `cv::getRotationMatrix2D` returns and `cv::warpAffine` takes. -/
structure Affine where
  m00 : ℚ
  m01 : ℚ
  m02 : ℚ
  m10 : ℚ
  m11 : ℚ
  m12 : ℚ
  deriving DecidableEq, Repr

/-- The OpenCV numerics the program relies on without fixing them: the fixed-point
luminance weights, cosine and sine of an angle given in degrees, and the resampling
`cv::warpAffine(src, dst, M, src.size())`. -/
structure OpenCV where
  gray : GrayCoeffs
  cosDeg : ℚ → ℚ
  sinDeg : ℚ → ℚ
  warpAffine : Mat → Affine → Mat

/-- The function `cv::getRotationMatrix2D(center, angle, scale)`. -/
def getRotationMatrix2D (cv : OpenCV) (center : Vec2) (angle scale : ℚ) : Affine :=
  let alpha := cv.cosDeg angle * scale
  let beta := cv.sinDeg angle * scale
  { m00 := alpha, m01 := beta, m02 := (1 - alpha) * center.x - beta * center.y,
    m10 := -beta, m11 := alpha, m12 := beta * center.x + (1 - alpha) * center.y }

/-- The matrix handed to `cv::warpAffine` (`main.cpp`, lines 187-192). -/
def cpuTransform (cv : OpenCV) (app : AppState) (processedFrame : Mat) : Affine :=
  let center : Vec2 := ⟨(processedFrame.cols : ℚ) / 2, (processedFrame.rows : ℚ) / 2⟩
  let transform := getRotationMatrix2D cv center app.rotation app.scale
  let transform1 : Affine :=
    { transform with m02 := transform.m02 + app.translation.x * (processedFrame.cols : ℚ) / 2 }
  { transform1 with m12 := transform1.m12 - app.translation.y * (processedFrame.rows : ℚ) / 2 }

/-- Image of the point `(x, y)` under the affine map `M`. -/
def Affine.apply (M : Affine) (p : Vec2) : Vec2 :=
  ⟨M.m00 * p.x + M.m01 * p.y + M.m02, M.m10 * p.x + M.m11 * p.y + M.m12⟩

/-! ## One iteration of the render loop (`main.cpp`, lines 158-246) -/

/-- The value of `processedFrame` when it reaches the texture-update step, before the flip
(`main.cpp`, lines 167-196). -/
def processFrame (cv : OpenCV) (app : AppState) (frame : Mat) : Option Mat :=
  let processedFrame := frame
  if app.processingMode = .CPU_MODE then
    let filtered : Option Mat :=
      match app.currentFilter with
      | .FILTER_PIXELATE => applyPixelationCPU processedFrame 10
      | .FILTER_GRAYSCALE => some (applyGrayscaleCPU cv.gray processedFrame)
      | .FILTER_NONE => some processedFrame
    match filtered with
    | none => none
    | some processedFrame1 =>
        if app.translation ≠ Vec2.zero ∨ app.rotation ≠ 0 ∨ app.scale ≠ 1 then
          some (cv.warpAffine processedFrame1 (cpuTransform cv app processedFrame1))
        else some processedFrame1
  else some processedFrame

/-- The frame whose data is passed to `videoTexture->update` (`main.cpp`, lines 199-201). -/
def uploadFrame (cv : OpenCV) (app : AppState) (frame : Mat) : Option Mat :=
  (processFrame cv app frame).map (fun processedFrame => cvtColorBGR2RGB (flip processedFrame))

/-- The uniform names the render loop writes. -/
inductive UniformName where
  | filterMode
  | pixelSize
  | uTranslateX
  | uTranslateY
  | uRotation
  | uScale
  deriving DecidableEq, Repr

/-- The value of a uniform: set through `setInt` or through `setFloat`. -/
inductive UniformValue where
  | int (v : Int)
  | float (v : ℚ)
  deriving DecidableEq, Repr

/-- The function `glm::radians` on a `float`: the `float` product of `degrees` with the
literal `0.01745329251994329576923690768489` converted to `float`. -/
def radians (degrees : ℚ) : ℚ :=
  roundToFloat (degrees * roundToFloat (1745329251994329576923690768489 / 10 ^ 32))

/-- The `setInt`/`setFloat` calls of one iteration, in source order (`main.cpp`,
lines 203-232). The source repeats the `else` block verbatim (lines 224-232), which is not
well-formed; the statement is read as `if ... else ...` with the copy dropped. -/
def uniformCalls (app : AppState) : List (UniformName × UniformValue) :=
  if app.processingMode = .GPU_MODE then
    [(.filterMode, .int app.currentFilter.toInt),
     (.pixelSize, .int 10),
     (.uTranslateX, .float app.translation.x),
     (.uTranslateY, .float app.translation.y),
     (.uRotation, .float (radians app.rotation)),
     (.uScale, .float app.scale)]
  else
    [(.filterMode, .int 0),
     (.uTranslateX, .float 0),
     (.uTranslateY, .float 0),
     (.uRotation, .float 0),
     (.uScale, .float 1)]

/-- The uniform values held by the shader program (taken to be linked and to declare the
six uniforms); `none` for a uniform never written. -/
def Uniforms : Type := UniformName → Option UniformValue

/-- One `setInt`/`setFloat` call. -/
def setUniform (u : Uniforms) (call : UniformName × UniformValue) : Uniforms :=
  fun n => if n = call.1 then some call.2 else u n

/-! ## The streaming texture (`common/Texture.cpp`) -/

/-- The level-0 image of a texture object. -/
structure TexImage where
  width : Nat
  height : Nat
  rgb : Bool
  px : Nat → Nat → Nat → Nat

/-- The error codes the texture calls can raise. -/
inductive GLError where
  | GL_INVALID_VALUE
  | GL_INVALID_OPERATION
  deriving DecidableEq, Repr

/-- The part of the OpenGL context the texture code touches. -/
structure GLContext where
  /-- Number of names `glGenTextures` has returned so far; they are `1 .. generated`. -/
  generated : Nat
  /-- Number of image allocations (`glTexImage2D` calls) so far. -/
  allocations : Nat
  /-- The image of each texture name, `none` while it has no storage. -/
  images : Nat → Option TexImage
  /-- The texture bound to `GL_TEXTURE_2D`. -/
  bound : Nat
  /-- The error flag, `none` for `GL_NO_ERROR`. -/
  error : Option GLError

/-- A fresh context. -/
def GLContext.fresh : GLContext := ⟨0, 0, fun _ => none, 0, none⟩

/-- The call `glGenTextures(1, &id)`: the new name and the context. -/
def glGenTextures (gl : GLContext) : Nat × GLContext :=
  (gl.generated + 1, { gl with generated := gl.generated + 1 })

/-- The call `glBindTexture(GL_TEXTURE_2D, id)`. -/
def glBindTexture (gl : GLContext) (id : Nat) : GLContext := { gl with bound := id }

/-- The call `glTexImage2D(GL_TEXTURE_2D, 0, format, width, height, 0, format,
GL_UNSIGNED_BYTE, data)`: new storage for the bound texture. -/
def glTexImage2D (gl : GLContext) (rgb : Bool) (width height : Nat)
    (data : Nat → Nat → Nat → Nat) : GLContext :=
  { gl with
    allocations := gl.allocations + 1
    images := fun id =>
      if id = gl.bound then some ⟨width, height, rgb, data⟩ else gl.images id }

/-- The call `glTexSubImage2D(GL_TEXTURE_2D, 0, 0, 0, width, height, format,
GL_UNSIGNED_BYTE, data)`: writes the region into the existing storage of the bound
texture; a region that does not fit raises `GL_INVALID_VALUE` and writes nothing. -/
def glTexSubImage2D (gl : GLContext) (width height : Nat) (data : Nat → Nat → Nat → Nat) :
    GLContext :=
  match gl.images gl.bound with
  | none => { gl with error := some (gl.error.getD .GL_INVALID_OPERATION) }
  | some im =>
      if width ≤ im.width ∧ height ≤ im.height then
        { gl with
          images := fun id =>
            if id = gl.bound then
              some { im with px := fun y x c => if y < height ∧ x < width then data y x c
                                                else im.px y x c }
            else gl.images id }
      else { gl with error := some (gl.error.getD .GL_INVALID_VALUE) }

/-- The class `Texture`. -/
structure Texture where
  textureID : Nat
  deriving DecidableEq, Repr

/-- The constructor `Texture::Texture(data, width, height, rgb)`; `data` is the client
memory read as a `width` by `height` image. -/
def Texture.create (gl : GLContext) (data : Nat → Nat → Nat → Nat) (width height : Nat)
    (rgb : Bool) : Texture × GLContext :=
  let r := glGenTextures gl
  let gl1 := glBindTexture r.2 r.1
  (⟨r.1⟩, glTexImage2D gl1 rgb width height data)

/-- The method `Texture::update(data, width, height, rgb)`. -/
def Texture.update (t : Texture) (gl : GLContext) (data : Nat → Nat → Nat → Nat)
    (width height : Nat) (_rgb : Bool) : Texture × GLContext :=
  let gl1 := glBindTexture gl t.textureID
  (t, glTexSubImage2D gl1 width height data)

/-- Everything one iteration of the render loop reads and writes. -/
structure World where
  app : AppState
  shouldClose : Bool
  gl : GLContext
  videoTexture : Texture
  uniforms : Uniforms
  /-- Number of `myScene->render` calls so far. -/
  renders : Nat

/-- The body of the `while` loop (`main.cpp`, lines 159-246) for the captured `frame` and
the events that `glfwPollEvents` delivers; `none` only if a filter does not return.
The test `videoTexture != nullptr` always succeeds (`videoTexture` is a `new Texture`). -/
def iteration (cv : OpenCV) (frame : Mat) (events : List (Window × Event)) (w : World) :
    Option World :=
  let captured : Option World :=
    if !frame.empty then
      match uploadFrame cv w.app frame with
      | none => none
      | some processedFrame =>
          let r := w.videoTexture.update w.gl processedFrame.px processedFrame.cols
            processedFrame.rows true
          some { w with videoTexture := r.1, gl := r.2,
                        uniforms := (uniformCalls w.app).foldl setUniform w.uniforms }
    else some w
  match captured with
  | none => none
  | some w1 =>
      let w2 : World := { w1 with renders := w1.renders + 1 }
      let g := pollEvents ⟨w2.app, w2.shouldClose⟩ events
      some { w2 with app := { g.app with frameCount := g.app.frameCount + 1 },
                     shouldClose := g.shouldClose }

/-! ## Shader creation and the startup of `main` (`common/Shader.cpp`, `main.cpp`, lines 76-141) -/

/-- What `Shader::loadShaders` meets: whether the two files open, the compile and link
status OpenGL reports, and the name `glCreateProgram` returns. -/
structure ShaderEnv where
  vertexFileOpens : Bool
  fragmentFileOpens : Bool
  vertexCompiles : Bool
  fragmentCompiles : Bool
  links : Bool
  program : Nat

/-- The diagnostics `Shader::loadShaders` writes to `std::cerr`. -/
inductive ShaderMessage where
  | vertexOpenFailed
  | fragmentOpenFailed
  | vertexCompileFailed
  | fragmentCompileFailed
  | linkFailed
  deriving DecidableEq, Repr

/-- The method `Shader::loadShaders`: the program name it returns and what it printed.
A file that does not open gives 0; a compile or link failure is printed and the
program name is returned all the same. -/
def loadShaders (env : ShaderEnv) : Nat × List ShaderMessage :=
  if !env.vertexFileOpens then (0, [.vertexOpenFailed])
  else if !env.fragmentFileOpens then (0, [.fragmentOpenFailed])
  else
    let log1 : List ShaderMessage := if env.vertexCompiles then [] else [.vertexCompileFailed]
    let log2 := if env.fragmentCompiles then log1 else log1 ++ [.fragmentCompileFailed]
    let log3 := if env.links then log2 else log2 ++ [.linkFailed]
    (env.program, log3)

/-- The class `Shader` (and `TextureShader`, which adds no check). -/
structure Shader where
  programID : Nat
  deriving DecidableEq, Repr

/-- The constructor `Shader::Shader(vertex_path, fragment_path)`, with the diagnostics. -/
def Shader.create (env : ShaderEnv) : Shader × List ShaderMessage :=
  let r := loadShaders env
  (⟨r.1⟩, r.2)

/-- What the startup of `main` meets: `cap.isOpened()`, the results of `glfwInit`,
`glfwCreateWindow` and `gladLoadGL`, the first captured frame, the shader environment,
the uninitialised `lastMousePos`, and the OpenCV numerics. -/
structure MainEnv where
  cameraOpened : Bool
  glfwInitOk : Bool
  windowCreated : Bool
  gladLoaded : Bool
  firstFrame : Mat
  shader : ShaderEnv
  garbage : Vec2
  cv : OpenCV

/-- The function `initWindow`. -/
def initWindow (env : MainEnv) : Bool :=
  if !env.glfwInitOk then false
  else if !env.windowCreated then false
  else true

/-- What `main` holds when it reaches the render loop. -/
structure Started where
  textureShader : Shader
  log : List ShaderMessage
  world : World

/-- Steps 1 to 3 of `main` (`main.cpp`, lines 77-141): the exit status of an early
`return`, or the state with which the render loop is entered. -/
def startup (env : MainEnv) : Except Int Started :=
  if !env.cameraOpened then .error (-1)
  else if !initWindow env then .error (-1)
  else if !env.gladLoaded then .error (-1)
  else if env.firstFrame.empty then .error (-1)
  else
    let textureShader := Shader.create env.shader
    let frame := cvtColorBGR2RGB (flip env.firstFrame)
    let videoTexture := Texture.create GLContext.fresh frame.px frame.cols frame.rows true
    .ok ⟨textureShader.1, textureShader.2,
      ⟨AppState.initial env.garbage, false, videoTexture.2, videoTexture.1, fun _ => none, 0⟩⟩

/-- The loop `while (!glfwWindowShouldClose(window))`, fed with the frame captured and the
events polled in each iteration; `none` when these inputs end before the window is asked
to close (the loop is still running) or when an iteration does not return. -/
def renderLoop (cv : OpenCV) : List (Mat × List (Window × Event)) → World → Option World
  | [], w => if w.shouldClose then some w else none
  | input :: rest, w =>
      if w.shouldClose then some w
      else
        match iteration cv input.1 input.2 w with
        | none => none
        | some w1 => renderLoop cv rest w1

/-- The exit status of `main` and the number of `myScene->render` calls it made. -/
structure MainResult where
  status : Int
  renders : Nat
  deriving DecidableEq, Repr

/-- The function `main`. -/
def main (env : MainEnv) (inputs : List (Mat × List (Window × Event))) : Option MainResult :=
  match startup env with
  | .error status => some ⟨status, 0⟩
  | .ok started =>
      match renderLoop env.cv inputs started.world with
      | none => none
      | some w => some ⟨0, w.renders⟩

/-! ## Specification-side definitions -/

/-- The tile-mean image: the pixel at `(y, x)` holds in every channel the `meanSample` of
the grid-aligned tile of `f` that contains it, clipped at the frame border. -/
def tileMeanImage (f : Mat) (p : Nat) : Mat :=
  { rows := f.rows
    cols := f.cols
    px := fun y x c =>
      if y < f.rows ∧ x < f.cols then
        meanSample
          (roiSum f (x / p * p) (y / p * p) (min p (f.cols - x / p * p))
            (min p (f.rows - y / p * p)) c)
          (min p (f.cols - x / p * p) * min p (f.rows - y / p * p))
      else f.px y x c }

/-- The scale lies in the clamp range of `scrollCallback`. -/
def scaleInRange (app : AppState) : Prop := 1 / 10 ≤ app.scale ∧ app.scale ≤ 5

/-! ## Concrete inputs used to instantiate the theorems -/

/-- A 3 by 5 frame with pairwise different samples. -/
def exampleFrame : Mat := ⟨3, 5, fun y x c => 10 * y + x + 100 * c⟩

/-- A 4 by 6 frame, both dimensions multiples of 2. -/
def exampleFrameEven : Mat := ⟨4, 6, fun y x c => 7 * y + 3 * x + 100 * c⟩

/-- An instance of the OpenCV numerics: 14-bit luminance weights, and stand-ins for the
trigonometry and the resampling (no theorem depends on them). -/
def exampleCv : OpenCV := ⟨GrayCoeffs.opencv14, fun _ => 1, fun _ => 0, fun m _ => m⟩

/-- A state in CPU mode with a drag in progress that started at `(100, 100)`. -/
def exampleDragging : AppState :=
  { AppState.initial ⟨100, 100⟩ with isDragging := true, processingMode := .CPU_MODE }

/-- A 1024 by 768 window with the R key held and the cursor at `(150, 100)`. -/
def exampleWindow : Window := ⟨150, 100, GLFW_PRESS, 1024, 768⟩

/-- A 1024 by 768 window with the R key not held. -/
def exampleWindowNoKey : Window := ⟨150, 100, GLFW_RELEASE, 1024, 768⟩

/-- The context and texture right after `new Texture(frame.data, 5, 3, true)`. -/
def exampleTexture : Texture × GLContext :=
  Texture.create GLContext.fresh exampleFrame.px 5 3 true

/-- A render-loop state in CPU mode. -/
def exampleWorldCpu : World :=
  ⟨exampleDragging, false, exampleTexture.2, exampleTexture.1, fun _ => none, 0⟩

/-- A render-loop state in GPU mode. -/
def exampleWorldGpu : World :=
  ⟨AppState.initial ⟨0, 0⟩, false, exampleTexture.2, exampleTexture.1, fun _ => none, 0⟩

/-- A shader environment in which both files open, compile and link. -/
def exampleShaderEnv : ShaderEnv := ⟨true, true, true, true, true, 3⟩

/-- A startup environment in which every step succeeds. -/
def exampleEnv : MainEnv :=
  ⟨true, true, true, true, exampleFrame, exampleShaderEnv, ⟨0, 0⟩, exampleCv⟩

/-- A startup environment in which only the vertex shader file cannot be opened. -/
def exampleEnvNoShaderFile : MainEnv :=
  { exampleEnv with shader := { exampleShaderEnv with vertexFileOpens := false } }

/-- A startup environment in which the camera cannot be opened. -/
def exampleEnvNoCamera : MainEnv := { exampleEnv with cameraOpened := false }

/-- One loop iteration: a captured frame, then a press of Escape. -/
def exampleInputs : List (Mat × List (Window × Event)) :=
  [(exampleFrame, [(exampleWindowNoKey, .key GLFW_KEY_ESCAPE 0 GLFW_PRESS 0)])]

/-- A frame with no pixel, as `cap >> frame` leaves it on a capture miss. -/
def emptyFrame : Mat := ⟨0, 0, fun _ _ _ => 0⟩

/-- A state with no drag in progress. -/
def exampleIdle : AppState := AppState.initial ⟨100, 100⟩

/-- A render-loop state in GPU mode with the pixelation filter selected, translation
`(1/4, -1/2)`, rotation 30 degrees and scale 2. -/
def exampleWorldGpuBusy : World :=
  ⟨{ AppState.initial ⟨0, 0⟩ with
      currentFilter := .FILTER_PIXELATE, translation := ⟨1 / 4, -1 / 2⟩, rotation := 30,
      scale := 2 },
    false, exampleTexture.2, exampleTexture.1, fun _ => none, 0⟩

/-- A startup environment in which only the fragment shader does not compile (and the
program therefore does not link). -/
def exampleEnvBadShader : MainEnv :=
  { exampleEnv with
    shader := { exampleShaderEnv with fragmentCompiles := false, links := false } }

/-! ## Auxiliary lemmas -/

theorem sumRange_congr {n : Nat} {g k : Nat → Nat} (h : ∀ i, i < n → g i = k i) :
    sumRange n g = sumRange n k := by
  induction n with
  | zero => rfl
  | succ n ih =>
    simp only [sumRange]
    rw [ih (fun i hi => h i (Nat.lt_succ_of_lt hi)), h n (Nat.lt_succ_self n)]

theorem sumRange_const (n v : Nat) : sumRange n (fun _ => v) = n * v := by
  induction n with
  | zero => simp [sumRange]
  | succ n ih => simp only [sumRange, ih]; ring

theorem roiSum_congr {m m' : Mat} {x y w h c : Nat}
    (hpx : ∀ dy dx, dy < h → dx < w → m.px (y + dy) (x + dx) c = m'.px (y + dy) (x + dx) c) :
    roiSum m x y w h c = roiSum m' x y w h c := by
  unfold roiSum
  exact sumRange_congr (fun dy hdy => sumRange_congr (fun dx hdx => hpx dy dx hdy hdx))

theorem roiSum_const {m : Mat} {x y w h c v : Nat}
    (hpx : ∀ dy dx, dy < h → dx < w → m.px (y + dy) (x + dx) c = v) :
    roiSum m x y w h c = w * h * v := by
  unfold roiSum
  rw [sumRange_congr (k := fun _ => w * v)
    (fun dy hdy => by
      rw [sumRange_congr (k := fun _ => v) (fun dx hdx => hpx dy dx hdy hdx), sumRange_const])]
  rw [sumRange_const]; ring

theorem cvRoundDiv_mul {n : Nat} (hn : 0 < n) (v : Nat) : cvRoundDiv (n * v) n = v := by
  unfold cvRoundDiv
  have h1 : n * v % n = 0 := Nat.mul_mod_right n v
  have h2 : n * v / n = v := Nat.mul_div_cancel_left v hn
  simp [h1, h2, hn, Nat.pos_iff_ne_zero.mp hn]

theorem meanSample_le (s n : Nat) : meanSample s n ≤ 255 := Nat.min_le_left _ _

theorem meanSample_mul {n v : Nat} (hn : 0 < n) (hv : v ≤ 255) : meanSample (n * v) n = v := by
  unfold meanSample
  rw [cvRoundDiv_mul hn]
  exact Nat.min_eq_right hv

theorem tileStart_eq {p x c : Nat} (hx : p ∣ x) (h1 : x ≤ c) (h2 : c < x + p) :
    c / p * p = x := by
  obtain ⟨k, rfl⟩ := hx
  have : c / p = k := by
    apply Nat.div_eq_of_lt_le
    · rw [Nat.mul_comm]; exact h1
    · rw [Nat.succ_mul, Nat.mul_comm]; exact h2
  rw [this, Nat.mul_comm]

theorem tileStart_ge {p x c : Nat} (hp : 0 < p) (hx : p ∣ x) (h1 : x ≤ c) :
    x ≤ c / p * p := by
  obtain ⟨k, rfl⟩ := hx
  have : k ≤ c / p := by
    rw [Nat.le_div_iff_mul_le hp, Nat.mul_comm]; exact h1
  calc p * k = k * p := Nat.mul_comm _ _
    _ ≤ c / p * p := Nat.mul_le_mul_right p this

theorem tileStart_le (p c : Nat) : c / p * p ≤ c := Nat.div_mul_le_self c p

theorem tileStart_dvd (p c : Nat) : p ∣ c / p * p := Dvd.intro_left _ rfl

theorem pixelateCols_spec (p y : Nat) (hp : 0 < p) :
    ∀ (fuel x : Nat) (g : Mat), p ∣ x → g.cols - x < fuel →
      ∃ g1, pixelateCols p y fuel x g = some g1 ∧ g1.rows = g.rows ∧ g1.cols = g.cols ∧
        ∀ r c ch, g1.px r c ch =
          if y ≤ r ∧ r < y + min p (g.rows - y) ∧ x ≤ c ∧ c < g.cols then
            meanSample
              (roiSum g (c / p * p) y (min p (g.cols - c / p * p)) (min p (g.rows - y)) ch)
              (min p (g.cols - c / p * p) * min p (g.rows - y))
          else g.px r c ch := by
  intro fuel
  induction fuel with
  | zero => intro x g _ h; exact absurd h (by omega)
  | succ n ih =>
    intro x g hx hfuel
    by_cases hlt : x < g.cols
    · have hx1 : p ∣ x + p := Dvd.dvd.add hx (dvd_refl p)
      obtain ⟨g1, hrun, hrows, hcols, hpx⟩ :=
        ih (x + p) (pixelateTile g p x y) hx1 (by simp only [pixelateTile, setRoi]; omega)
      refine ⟨g1, ?_, ?_, ?_, ?_⟩
      · simp only [pixelateCols, hlt, if_true]; exact hrun
      · rw [hrows]; rfl
      · rw [hcols]; rfl
      · intro r c ch
        rw [hpx r c ch]
        have hR : (pixelateTile g p x y).rows = g.rows := rfl
        have hC : (pixelateTile g p x y).cols = g.cols := rfl
        rw [hR, hC]
        by_cases hband : y ≤ r ∧ r < y + min p (g.rows - y)
        · by_cases hc : c < g.cols
          · by_cases hcx : x + p ≤ c
            · -- a later tile of the band: the tile at x did not touch it
              have hs : x + p ≤ c / p * p := tileStart_ge hp hx1 hcx
              rw [if_pos ⟨hband.1, hband.2, hcx, hc⟩, if_pos ⟨hband.1, hband.2, by omega, hc⟩]
              congr 1
              apply roiSum_congr
              intro dy dx _ _
              simp only [pixelateTile, setRoi]
              rw [if_neg]
              intro hin
              have := Nat.min_le_left p (g.cols - x)
              omega
            · rw [if_neg (by omega)]
              by_cases hxc : x ≤ c
              · -- the tile at x itself
                have hs : c / p * p = x := tileStart_eq hx hxc (by omega)
                rw [if_pos ⟨hband.1, hband.2, hxc, hc⟩, hs]
                simp only [pixelateTile, setRoi]
                rw [if_pos]
                refine ⟨hband.1, hband.2, hxc, ?_⟩
                have : c - x < min p (g.cols - x) := by
                  rw [Nat.lt_min]; omega
                omega
              · rw [if_neg (by omega)]
                simp only [pixelateTile, setRoi]
                rw [if_neg (by omega)]
          · rw [if_neg (by omega), if_neg (by omega)]
            simp only [pixelateTile, setRoi]
            rw [if_neg]
            intro hin
            have := Nat.min_le_right p (g.cols - x)
            omega
        · rw [if_neg (fun h => hband ⟨h.1, h.2.1⟩), if_neg (fun h => hband ⟨h.1, h.2.1⟩)]
          simp only [pixelateTile, setRoi]
          rw [if_neg (fun h => hband ⟨h.1, h.2.1⟩)]
    · refine ⟨g, ?_, rfl, rfl, ?_⟩
      · simp only [pixelateCols, hlt, if_false]
      · intro r c ch
        rw [if_neg]
        intro hin
        omega



theorem pixelateRows_spec (p : Nat) (hp : 0 < p) :
    ∀ (fuel y : Nat) (g : Mat), p ∣ y → g.rows - y < fuel →
      ∃ g2, pixelateRows p fuel y g = some g2 ∧ g2.rows = g.rows ∧ g2.cols = g.cols ∧
        ∀ r c ch, g2.px r c ch =
          if y ≤ r ∧ r < g.rows ∧ c < g.cols then
            meanSample
              (roiSum g (c / p * p) (r / p * p) (min p (g.cols - c / p * p))
                (min p (g.rows - r / p * p)) ch)
              (min p (g.cols - c / p * p) * min p (g.rows - r / p * p))
          else g.px r c ch := by
  intro fuel
  induction fuel with
  | zero => intro y g _ h; exact absurd h (by omega)
  | succ n ih =>
    intro y g hy hfuel
    by_cases hlt : y < g.rows
    · have hy1 : p ∣ y + p := Dvd.dvd.add hy (dvd_refl p)
      obtain ⟨g1, hrun1, hrows1, hcols1, hpx1⟩ :=
        pixelateCols_spec p y hp (g.cols + 1) 0 g (dvd_zero p) (by omega)
      obtain ⟨g2, hrun2, hrows2, hcols2, hpx2⟩ := ih (y + p) g1 hy1 (by rw [hrows1]; omega)
      refine ⟨g2, ?_, by rw [hrows2, hrows1], by rw [hcols2, hcols1], ?_⟩
      · simp only [pixelateRows, hlt, if_true, hrun1]; exact hrun2
      · intro r c ch
        rw [hpx2 r c ch, hrows1, hcols1]
        by_cases hin : y + p ≤ r ∧ r < g.rows ∧ c < g.cols
        · -- a later band: the band at y did not touch it
          have hs : y + p ≤ r / p * p := tileStart_ge hp hy1 hin.1
          rw [if_pos hin, if_pos ⟨by omega, hin.2.1, hin.2.2⟩]
          congr 1
          apply roiSum_congr
          intro dy dx _ _
          rw [hpx1, if_neg]
          intro hband
          have := Nat.min_le_left p (g.rows - y)
          omega
        · rw [if_neg hin, hpx1]
          by_cases hband : y ≤ r ∧ r < g.rows ∧ c < g.cols
          · have hr : r < y + p := by
              by_contra hge
              exact hin ⟨by omega, hband.2.1, hband.2.2⟩
            have hs : r / p * p = y := tileStart_eq hy hband.1 hr
            have hmin : r - y < min p (g.rows - y) := by rw [Nat.lt_min]; omega
            rw [if_pos hband, hs, if_pos ⟨hband.1, by omega, Nat.zero_le c, hband.2.2⟩]
          · rw [if_neg hband, if_neg]
            intro h
            have := Nat.min_le_right p (g.rows - y)
            exact hband ⟨h.1, by omega, h.2.2.2⟩
    · refine ⟨g, ?_, rfl, rfl, ?_⟩
      · simp only [pixelateRows, hlt, if_false]
      · intro r c ch
        rw [if_neg]
        intro hin
        omega

theorem Mat.ext_px (a b : Mat) (hr : a.rows = b.rows) (hc : a.cols = b.cols)
    (hpx : ∀ y x c, a.px y x c = b.px y x c) : a = b := by
  cases a; cases b
  simp only at hr hc hpx
  subst hr; subst hc
  congr
  funext y x c
  exact hpx y x c

theorem applyPixelationCPU_eq (f : Mat) (p : Nat) (hp : 0 < p) :
    applyPixelationCPU f p = some (tileMeanImage f p) := by
  obtain ⟨g, hrun, hrows, hcols, hpx⟩ :=
    pixelateRows_spec p hp (f.rows + 1) 0 f (dvd_zero p) (by omega)
  have hg : g = tileMeanImage f p := by
    apply Mat.ext_px g (tileMeanImage f p) hrows hcols
    intro y x c
    rw [hpx]
    simp only [tileMeanImage, Nat.zero_le, true_and]
  unfold applyPixelationCPU
  rw [hrun, hg]

theorem tileMeanImage_px_le (f : Mat) (p y x c : Nat) (hy : y < f.rows) (hx : x < f.cols) :
    (tileMeanImage f p).px y x c ≤ 255 := by
  simp only [tileMeanImage]
  rw [if_pos ⟨hy, hx⟩]
  exact meanSample_le _ _

theorem tileMeanImage_idem (f : Mat) (p : Nat) (hp : 0 < p) :
    tileMeanImage (tileMeanImage f p) p = tileMeanImage f p := by
  apply Mat.ext_px (tileMeanImage (tileMeanImage f p) p) (tileMeanImage f p) rfl rfl
  intro y x c
  by_cases hin : y < f.rows ∧ x < f.cols
  · have hR : (tileMeanImage f p).rows = f.rows := rfl
    have hC : (tileMeanImage f p).cols = f.cols := rfl
    have hty := tileStart_le p y
    have htx := tileStart_le p x
    have hw : 0 < min p (f.cols - x / p * p) := by rw [Nat.lt_min]; omega
    have hh : 0 < min p (f.rows - y / p * p) := by rw [Nat.lt_min]; omega
    have hconst : ∀ dy dx, dy < min p (f.rows - y / p * p) → dx < min p (f.cols - x / p * p) →
        (tileMeanImage f p).px (y / p * p + dy) (x / p * p + dx) c
          = (tileMeanImage f p).px y x c := by
      intro dy dx hdy hdx
      rw [Nat.lt_min] at hdy hdx
      have e1 : (y / p * p + dy) / p * p = y / p * p :=
        tileStart_eq (tileStart_dvd p y) (Nat.le_add_right _ _) (by omega)
      have e2 : (x / p * p + dx) / p * p = x / p * p :=
        tileStart_eq (tileStart_dvd p x) (Nat.le_add_right _ _) (by omega)
      simp only [tileMeanImage]
      rw [if_pos ⟨by omega, by omega⟩, if_pos hin, e1, e2]
    have hsum := roiSum_const hconst
    have hle := tileMeanImage_px_le f p y x c hin.1 hin.2
    show (if y < (tileMeanImage f p).rows ∧ x < (tileMeanImage f p).cols then _ else _) = _
    rw [hR, hC, if_pos hin, hsum]
    exact meanSample_mul (Nat.mul_pos hw hh) hle
  · show (if y < (tileMeanImage f p).rows ∧ x < (tileMeanImage f p).cols then _ else _) = _
    have hR : (tileMeanImage f p).rows = f.rows := rfl
    have hC : (tileMeanImage f p).cols = f.cols := rfl
    rw [hR, hC, if_neg hin]

theorem luminance_gray (k : GrayCoeffs) (hk : k.b2y + k.g2y + k.r2y = 2 ^ k.shift)
    (hs : 1 ≤ k.shift) (v : Nat) : luminance k v v v = v := by
  unfold luminance
  have h1 : v * k.b2y + v * k.g2y + v * k.r2y = 2 ^ k.shift * v := by
    rw [← Nat.mul_add, ← Nat.mul_add, hk, Nat.mul_comm]
  have hpos : 0 < 2 ^ k.shift := Nat.pow_pos (by decide)
  have hlt : 2 ^ (k.shift - 1) < 2 ^ k.shift :=
    Nat.pow_lt_pow_right (by decide) (by omega)
  rw [h1, Nat.mul_add_div hpos, Nat.div_eq_of_lt hlt, Nat.add_zero]

theorem applyGrayscaleCPU_px (k : GrayCoeffs) (f : Mat) (y x c : Nat) :
    (applyGrayscaleCPU k f).px y x c = luminance k (f.px y x 0) (f.px y x 1) (f.px y x 2) := rfl

theorem clamp_bounds (x lo hi : ℚ) (h : lo ≤ hi) :
    lo ≤ clamp x lo hi ∧ clamp x lo hi ≤ hi := by
  unfold clamp
  exact ⟨le_min (le_max_right _ _) h, min_le_right _ _⟩

theorem roundToFloat_tenth : roundToFloat (1 / 10) = 13421773 / 134217728 := by decide!

theorem roundToFloat_samples :
    roundToFloat 0 = 0 ∧ roundToFloat 1 = 1 ∧ roundToFloat (-25) = -25 ∧
      roundToFloat (1 / 3) = 11184811 / 33554432 ∧
      roundToFloat (1 + 1 / 2 ^ 24) = 1 ∧
      roundToFloat (1 + 3 / 2 ^ 24) = 1 + 1 / 2 ^ 22 ∧
      roundToFloat (-(1 + 3 / 2 ^ 24)) = -(1 + 1 / 2 ^ 22) ∧
      roundToFloat (2 - 1 / 2 ^ 25) = 2 ∧
      roundToFloat (1 / 2 ^ 149) = 1 / 2 ^ 149 ∧
      roundToFloat (1 / 2 ^ 150) = 0 ∧
      roundToFloat (3 / 2 ^ 150) = 1 / 2 ^ 148 ∧
      roundToDouble (1 / 10) = 3602879701896397 / 36028797018963968 ∧
      roundToDouble (1 + 1 / 2 ^ 53) = 1 := by
  refine ⟨by decide!, by decide!, by decide!, by decide!, by decide!, by decide!, by decide!,
    by decide!, by decide!, by decide!, by decide!, by decide!, by decide!⟩

theorem roundToFloat_radiansFactor :
    roundToFloat (1745329251994329576923690768489 / 10 ^ 32) = 9370165 / 536870912 := by
  decide!

theorem scrollCallback_scale (app : AppState) (xo d : ℚ) :
    (scrollCallback app xo d).scale =
      min (max (roundToFloat (roundToDouble
            (app.scale + roundToDouble (d * (13421773 / 134217728)))))
          (13421773 / 134217728)) 5 := by
  show clamp
      (roundToFloat (roundToDouble (app.scale + roundToDouble (d * roundToFloat (1 / 10)))))
      (roundToFloat (1 / 10)) 5 = _
  rw [roundToFloat_tenth]
  rfl

theorem keyCallback_scale (app : AppState) (sc : Bool) (key scancode action mods : Int) :
    (keyCallback app sc key scancode action mods).1.scale = app.scale ∨
    (keyCallback app sc key scancode action mods).1.scale = 1 := by
  unfold keyCallback
  split_ifs <;> simp

theorem mouseButtonCallback_scale (w : Window) (app : AppState) (button action mods : Int) :
    (mouseButtonCallback w app button action mods).scale = app.scale := by
  unfold mouseButtonCallback
  split_ifs <;> rfl

theorem cursorPosCallback_scale (w : Window) (app : AppState) (xpos ypos : ℚ) :
    (cursorPosCallback w app xpos ypos).scale = app.scale := by
  unfold cursorPosCallback
  split_ifs <;> rfl

theorem dispatch_scaleInRange (g : Globals) (we : Window × Event) (h : scaleInRange g.app) :
    scaleInRange (dispatch g we).app := by
  obtain ⟨w, e⟩ := we
  cases e with
  | key key scancode action mods =>
    show scaleInRange (keyCallback g.app g.shouldClose key scancode action mods).1
    unfold scaleInRange
    rcases keyCallback_scale g.app g.shouldClose key scancode action mods with h1 | h1
    · rw [h1]; exact h
    · rw [h1]; norm_num
  | mouseButton button action mods =>
    show scaleInRange (mouseButtonCallback w g.app button action mods)
    unfold scaleInRange
    rw [mouseButtonCallback_scale]; exact h
  | cursorPos xpos ypos =>
    show scaleInRange (cursorPosCallback w g.app xpos ypos)
    unfold scaleInRange
    rw [cursorPosCallback_scale]; exact h
  | scroll xo d =>
    show scaleInRange (scrollCallback g.app xo d)
    unfold scaleInRange
    rw [scrollCallback_scale]
    exact ⟨le_min (le_trans (by norm_num) (le_max_right _ _)) (by norm_num), min_le_right _ _⟩

theorem pollEvents_scaleInRange (evs : List (Window × Event)) :
    ∀ g : Globals, scaleInRange g.app → scaleInRange (pollEvents g evs).app := by
  induction evs with
  | nil => intro g h; exact h
  | cons e evs ih =>
    intro g h
    exact ih (dispatch g e) (dispatch_scaleInRange g e h)

theorem processFrame_isSome (cv : OpenCV) (app : AppState) (frame : Mat) :
    ∃ m, processFrame cv app frame = some m := by
  unfold processFrame
  by_cases hmode : app.processingMode = .CPU_MODE
  · simp only [hmode, if_true]
    cases app.currentFilter with
    | FILTER_PIXELATE =>
      simp only [applyPixelationCPU_eq frame 10 (by decide)]
      split_ifs <;> exact ⟨_, rfl⟩
    | FILTER_GRAYSCALE => simp only; split_ifs <;> exact ⟨_, rfl⟩
    | FILTER_NONE => simp only; split_ifs <;> exact ⟨_, rfl⟩
  · simp only [hmode, if_false]
    exact ⟨_, rfl⟩

theorem iteration_of_upload (cv : OpenCV) (frame : Mat) (events : List (Window × Event))
    (w : World) (m : Mat) (hframe : frame.empty = false)
    (hm : uploadFrame cv w.app frame = some m) :
    ∃ w1, iteration cv frame events w = some w1 ∧
      w1.uniforms = (uniformCalls w.app).foldl setUniform w.uniforms ∧
      w1.gl = (w.videoTexture.update w.gl m.px m.cols m.rows true).2 ∧
      w1.videoTexture = (w.videoTexture.update w.gl m.px m.cols m.rows true).1 ∧
      w1.renders = w.renders + 1 := by
  unfold iteration
  simp only [hframe, hm, Bool.not_false, if_true]
  exact ⟨_, rfl, rfl, rfl, rfl, rfl⟩

theorem fullTile {p n i : Nat} (hp : 0 < p) (hd : p ∣ n) (hi : i < n) :
    min p (n - i / p * p) = p := by
  obtain ⟨m, rfl⟩ := hd
  have h1 : i / p < m := Nat.div_lt_of_lt_mul hi
  have h2 : (i / p + 1) * p ≤ m * p := Nat.mul_le_mul_right p h1
  rw [Nat.succ_mul] at h2
  rw [Nat.mul_comm p m]
  apply Nat.min_eq_left
  omega

theorem tileMeanImage_px (f : Mat) (p y x c : Nat) (hy : y < f.rows) (hx : x < f.cols) :
    (tileMeanImage f p).px y x c =
      meanSample
        (roiSum f (x / p * p) (y / p * p) (min p (f.cols - x / p * p))
          (min p (f.rows - y / p * p)) c)
        (min p (f.cols - x / p * p) * min p (f.rows - y / p * p)) := by
  simp only [tileMeanImage]
  rw [if_pos ⟨hy, hx⟩]

theorem cvRoundDiv_nearest {s n : Nat} (hn : 0 < n) :
    2 * s ≤ 2 * (n * cvRoundDiv s n) + n ∧ 2 * (n * cvRoundDiv s n) ≤ 2 * s + n := by
  have hdm : n * (s / n) + s % n = s := Nat.div_add_mod s n
  have hmod : s % n < n := Nat.mod_lt s hn
  unfold cvRoundDiv
  rw [if_neg (Nat.pos_iff_ne_zero.mp hn)]
  split_ifs with h1 h2 h3
  · constructor <;> omega
  · rw [Nat.mul_add, Nat.mul_one]; constructor <;> omega
  · constructor <;> omega
  · rw [Nat.mul_add, Nat.mul_one]; constructor <;> omega

theorem cvRoundDiv_le {s n b : Nat} (hn : 0 < n) (hs : s ≤ b * n) : cvRoundDiv s n ≤ b := by
  have hdm : n * (s / n) + s % n = s := Nat.div_add_mod s n
  have hq : s / n ≤ b := Nat.div_le_of_le_mul (by rw [Nat.mul_comm]; exact hs)
  have hr : s / n = b → s % n = 0 := by
    intro h
    rw [h, Nat.mul_comm] at hdm
    omega
  unfold cvRoundDiv
  rw [if_neg (Nat.pos_iff_ne_zero.mp hn)]
  split_ifs with h1 h2 h3
  · exact hq
  · rcases Nat.lt_or_eq_of_le hq with h | h
    · omega
    · have := hr h; omega
  · exact hq
  · rcases Nat.lt_or_eq_of_le hq with h | h
    · omega
    · have := hr h; omega

theorem meanSample_nearest {s n : Nat} (hn : 0 < n) (hs : s ≤ 255 * n) :
    2 * s ≤ 2 * (n * meanSample s n) + n ∧ 2 * (n * meanSample s n) ≤ 2 * s + n := by
  unfold meanSample
  rw [Nat.min_eq_right (cvRoundDiv_le hn hs)]
  exact cvRoundDiv_nearest hn

theorem sumRange_le {n b : Nat} {g : Nat → Nat} (h : ∀ i, i < n → g i ≤ b) :
    sumRange n g ≤ n * b := by
  induction n with
  | zero => simp [sumRange]
  | succ n ih =>
    simp only [sumRange]
    have h1 := ih (fun i hi => h i (Nat.lt_succ_of_lt hi))
    have h2 := h n (Nat.lt_succ_self n)
    rw [Nat.succ_mul]
    omega

theorem roiSum_le {m : Mat} {x y w h c b : Nat}
    (hpx : ∀ dy dx, dy < h → dx < w → m.px (y + dy) (x + dx) c ≤ b) :
    roiSum m x y w h c ≤ b * (w * h) := by
  unfold roiSum
  have h1 := sumRange_le (n := h) (b := w * b)
    (g := fun dy => sumRange w (fun dx => m.px (y + dy) (x + dx) c))
    (fun dy hdy => sumRange_le (fun dx hdx => hpx dy dx hdy hdx))
  calc _ ≤ h * (w * b) := h1
    _ = b * (w * h) := by ring

theorem tileMeanImage_nearest (f : Mat) (p y x c : Nat) (hp : 0 < p) (hy : y < f.rows)
    (hx : x < f.cols) (h8 : ∀ r k, r < f.rows → k < f.cols → f.px r k c ≤ 255) :
    2 * roiSum f (x / p * p) (y / p * p) (min p (f.cols - x / p * p))
          (min p (f.rows - y / p * p)) c
        ≤ 2 * (min p (f.cols - x / p * p) * min p (f.rows - y / p * p)
                * (tileMeanImage f p).px y x c)
          + min p (f.cols - x / p * p) * min p (f.rows - y / p * p) ∧
      2 * (min p (f.cols - x / p * p) * min p (f.rows - y / p * p)
              * (tileMeanImage f p).px y x c)
        ≤ 2 * roiSum f (x / p * p) (y / p * p) (min p (f.cols - x / p * p))
              (min p (f.rows - y / p * p)) c
          + min p (f.cols - x / p * p) * min p (f.rows - y / p * p) := by
  have hty := tileStart_le p y
  have htx := tileStart_le p x
  have hw : 0 < min p (f.cols - x / p * p) := by rw [Nat.lt_min]; omega
  have hh : 0 < min p (f.rows - y / p * p) := by rw [Nat.lt_min]; omega
  have hsum : roiSum f (x / p * p) (y / p * p) (min p (f.cols - x / p * p))
      (min p (f.rows - y / p * p)) c
        ≤ 255 * (min p (f.cols - x / p * p) * min p (f.rows - y / p * p)) := by
    apply roiSum_le
    intro dy dx hdy hdx
    rw [Nat.lt_min] at hdy hdx
    exact h8 _ _ (by omega) (by omega)
  rw [tileMeanImage_px f p y x c hy hx]
  exact meanSample_nearest (Nat.mul_pos hw hh) hsum

theorem update_fits (t : Texture) (gl : GLContext) (data : Nat → Nat → Nat → Nat)
    (width height : Nat) (rgb : Bool) (im : TexImage)
    (him : gl.images t.textureID = some im) (hfit : width ≤ im.width ∧ height ≤ im.height) :
    (t.update gl data width height rgb).2 =
      { gl with
        bound := t.textureID
        images := fun id =>
          if id = t.textureID then
            some { im with px := fun y x c => if y < height ∧ x < width then data y x c
                                              else im.px y x c }
          else gl.images id } := by
  simp only [Texture.update, glTexSubImage2D, glBindTexture, him, hfit, and_self, if_true]

theorem update_too_large (t : Texture) (gl : GLContext) (data : Nat → Nat → Nat → Nat)
    (width height : Nat) (rgb : Bool) (im : TexImage)
    (him : gl.images t.textureID = some im)
    (hfit : ¬(width ≤ im.width ∧ height ≤ im.height)) :
    (t.update gl data width height rgb).2 =
      { gl with
        bound := t.textureID
        error := some (gl.error.getD .GL_INVALID_VALUE) } := by
  simp only [Texture.update, glTexSubImage2D, glBindTexture, him, hfit, if_false]

theorem iteration_of_empty (cv : OpenCV) (frame : Mat) (events : List (Window × Event))
    (w : World) (hempty : frame.empty = true) :
    iteration cv frame events w =
      some { w with
        renders := w.renders + 1
        app := { (pollEvents ⟨w.app, w.shouldClose⟩ events).app with
                 frameCount := (pollEvents ⟨w.app, w.shouldClose⟩ events).app.frameCount + 1 }
        shouldClose := (pollEvents ⟨w.app, w.shouldClose⟩ events).shouldClose } := by
  unfold iteration
  simp only [hempty, Bool.not_true, Bool.false_eq_true, if_false]

theorem startup_ok (env : MainEnv) (h1 : env.cameraOpened = true) (h2 : env.glfwInitOk = true)
    (h3 : env.windowCreated = true) (h4 : env.gladLoaded = true)
    (h5 : env.firstFrame.empty = false) :
    startup env =
      .ok ⟨(Shader.create env.shader).1, (Shader.create env.shader).2,
        ⟨AppState.initial env.garbage, false,
          (Texture.create GLContext.fresh (cvtColorBGR2RGB (flip env.firstFrame)).px
            env.firstFrame.cols env.firstFrame.rows true).2,
          (Texture.create GLContext.fresh (cvtColorBGR2RGB (flip env.firstFrame)).px
            env.firstFrame.cols env.firstFrame.rows true).1,
          fun _ => none, 0⟩⟩ := by
  unfold startup initWindow
  simp only [h1, h2, h3, h4, h5, Bool.not_true, Bool.false_eq_true, if_false]
  rfl

theorem startup_error (env : MainEnv)
    (h : env.cameraOpened = false ∨ env.glfwInitOk = false ∨ env.windowCreated = false ∨
      env.gladLoaded = false ∨ env.firstFrame.empty = true) :
    startup env = .error (-1) := by
  unfold startup initWindow
  cases hc : env.cameraOpened
  · rfl
  · cases hg : env.glfwInitOk
    · rfl
    · cases hw : env.windowCreated
      · rfl
      · cases hl : env.gladLoaded
        · rfl
        · cases hf : env.firstFrame.empty
          · rw [hc, hg, hw, hl, hf] at h
            simp at h
          · rfl

theorem keyCallback_not_press (app : AppState) (sc : Bool) (key scancode action mods : Int)
    (h : action ≠ GLFW_PRESS) : keyCallback app sc key scancode action mods = (app, sc) := by
  unfold keyCallback
  rw [if_neg h]

theorem keyCallback_isDragging (app : AppState) (sc : Bool) (key scancode action mods : Int) :
    (keyCallback app sc key scancode action mods).1.isDragging = app.isDragging := by
  unfold keyCallback
  split_ifs <;> rfl

theorem cursorPosCallback_isDragging (w : Window) (app : AppState) (xpos ypos : ℚ) :
    (cursorPosCallback w app xpos ypos).isDragging = app.isDragging := by
  unfold cursorPosCallback
  split_ifs <;> rfl

theorem mouseButtonCallback_isDragging (w : Window) (app : AppState)
    (button action mods : Int) :
    (mouseButtonCallback w app button action mods).isDragging =
      if button = GLFW_MOUSE_BUTTON_LEFT then
        if action = GLFW_PRESS then true
        else if action = GLFW_RELEASE then false
        else app.isDragging
      else app.isDragging := by
  unfold mouseButtonCallback
  split_ifs <;> rfl

/-! ## The claims -/

/-- C1: in CPU mode, for a non-empty captured frame, the uniform calls of the iteration
are exactly `filterMode = 0`, `uTranslateX = 0`, `uTranslateY = 0`, `uRotation = 0`,
`uScale = 1`, whatever the current filter and transform; the iteration returns and
leaves the program with these values (and `pixelSize` as it was). -/
theorem C1_cpu_mode_neutral_uniforms (cv : OpenCV) (frame : Mat)
    (events : List (Window × Event)) (w : World)
    (hcpu : w.app.processingMode = .CPU_MODE) (hframe : frame.empty = false) :
    uniformCalls w.app =
        [(.filterMode, .int 0), (.uTranslateX, .float 0), (.uTranslateY, .float 0),
         (.uRotation, .float 0), (.uScale, .float 1)] ∧
      ∃ w1, iteration cv frame events w = some w1 ∧
        w1.uniforms .filterMode = some (.int 0) ∧
        w1.uniforms .uTranslateX = some (.float 0) ∧
        w1.uniforms .uTranslateY = some (.float 0) ∧
        w1.uniforms .uRotation = some (.float 0) ∧
        w1.uniforms .uScale = some (.float 1) ∧
        w1.uniforms .pixelSize = w.uniforms .pixelSize := by
  have hcalls : uniformCalls w.app =
      [(.filterMode, .int 0), (.uTranslateX, .float 0), (.uTranslateY, .float 0),
       (.uRotation, .float 0), (.uScale, .float 1)] := by
    unfold uniformCalls
    rw [if_neg (by rw [hcpu]; decide)]
  refine ⟨hcalls, ?_⟩
  obtain ⟨m, hm⟩ := processFrame_isSome cv w.app frame
  obtain ⟨w1, hrun, hu, -, -, -⟩ :=
    iteration_of_upload cv frame events w _ hframe (by unfold uploadFrame; rw [hm]; rfl)
  refine ⟨w1, hrun, ?_⟩
  rw [hu, hcalls]
  simp [List.foldl, setUniform]

/-- C1 at a concrete CPU-mode state and frame. -/
theorem C1_cpu_mode_neutral_uniforms_witness :
    exampleWorldCpu.app.processingMode = .CPU_MODE ∧ exampleFrame.empty = false ∧
      uniformCalls exampleWorldCpu.app =
        [(.filterMode, .int 0), (.uTranslateX, .float 0), (.uTranslateY, .float 0),
         (.uRotation, .float 0), (.uScale, .float 1)] :=
  ⟨rfl, rfl, (C1_cpu_mode_neutral_uniforms exampleCv exampleFrame [] exampleWorldCpu rfl rfl).1⟩

/-- C2: in GPU mode, for a non-empty captured frame, the iteration sets `filterMode` to
the enum ordinal of the filter (0, 1, 2), `pixelSize` to 10, the translation uniforms to
the translation components, `uRotation` to the `float` product of the rotation with
`9370165 / 536870912` (the `float` next to pi / 180) and `uScale` to the scale. The frame
handed to the texture has the size of the captured frame, its row `y` is row
`rows - 1 - y` of the captured frame with channels 0 and 2 exchanged, and no filter and
no warp is applied, whatever the filter and the transform are. -/
theorem C2_gpu_mode_mirrors_state (cv : OpenCV) (frame : Mat)
    (events : List (Window × Event)) (w : World)
    (hgpu : w.app.processingMode = .GPU_MODE) (hframe : frame.empty = false) :
    uniformCalls w.app =
        [(.filterMode, .int w.app.currentFilter.toInt), (.pixelSize, .int 10),
         (.uTranslateX, .float w.app.translation.x),
         (.uTranslateY, .float w.app.translation.y),
         (.uRotation, .float (roundToFloat (w.app.rotation * (9370165 / 536870912)))),
         (.uScale, .float w.app.scale)] ∧
      FilterMode.FILTER_NONE.toInt = 0 ∧ FilterMode.FILTER_PIXELATE.toInt = 1 ∧
      FilterMode.FILTER_GRAYSCALE.toInt = 2 ∧
      |(9370165 / 536870912 : ℝ) - Real.pi / 180| < 1 / 2 ^ 30 ∧
      uploadFrame cv w.app frame = some (cvtColorBGR2RGB (flip frame)) ∧
      (cvtColorBGR2RGB (flip frame)).rows = frame.rows ∧
      (cvtColorBGR2RGB (flip frame)).cols = frame.cols ∧
      (∀ y x,
        (cvtColorBGR2RGB (flip frame)).px y x 0 = frame.px (frame.rows - 1 - y) x 2 ∧
        (cvtColorBGR2RGB (flip frame)).px y x 1 = frame.px (frame.rows - 1 - y) x 1 ∧
        (cvtColorBGR2RGB (flip frame)).px y x 2 = frame.px (frame.rows - 1 - y) x 0) ∧
      ∃ w1, iteration cv frame events w = some w1 ∧
        w1.uniforms .filterMode = some (.int w.app.currentFilter.toInt) ∧
        w1.uniforms .pixelSize = some (.int 10) ∧
        w1.uniforms .uTranslateX = some (.float w.app.translation.x) ∧
        w1.uniforms .uTranslateY = some (.float w.app.translation.y) ∧
        w1.uniforms .uRotation
          = some (.float (roundToFloat (w.app.rotation * (9370165 / 536870912)))) ∧
        w1.uniforms .uScale = some (.float w.app.scale) ∧
        w1.gl = (w.videoTexture.update w.gl (cvtColorBGR2RGB (flip frame)).px
                  frame.cols frame.rows true).2 := by
  have hcalls : uniformCalls w.app =
      [(.filterMode, .int w.app.currentFilter.toInt), (.pixelSize, .int 10),
       (.uTranslateX, .float w.app.translation.x),
       (.uTranslateY, .float w.app.translation.y),
       (.uRotation, .float (roundToFloat (w.app.rotation * (9370165 / 536870912)))),
       (.uScale, .float w.app.scale)] := by
    unfold uniformCalls radians
    rw [if_pos hgpu, roundToFloat_radiansFactor]
  have hup : uploadFrame cv w.app frame = some (cvtColorBGR2RGB (flip frame)) := by
    unfold uploadFrame processFrame
    rw [if_neg (by rw [hgpu]; decide)]
    rfl
  have hpi : |(9370165 / 536870912 : ℝ) - Real.pi / 180| < 1 / 2 ^ 30 := by
    have h1 := Real.pi_gt_d20
    have h2 := Real.pi_lt_d20
    rw [abs_lt]
    constructor <;> norm_num at h1 h2 ⊢ <;> linarith
  refine ⟨hcalls, rfl, rfl, rfl, hpi, hup, rfl, rfl, fun y x => ⟨rfl, rfl, rfl⟩, ?_⟩
  obtain ⟨w1, hrun, hu, hgl, -, -⟩ := iteration_of_upload cv frame events w _ hframe hup
  refine ⟨w1, hrun, ?_, ?_, ?_, ?_, ?_, ?_, hgl⟩ <;>
    · rw [hu, hcalls]
      simp [List.foldl, setUniform]

/-- C2 at a GPU-mode state with the pixelation filter, translation `(1/4, -1/2)`, rotation
30 degrees and scale 2: the uniform values, 30 degrees giving `4392265 / 8388608`, and
three samples of the frame handed to the texture, none of them pixelated or warped. -/
theorem C2_gpu_mode_mirrors_state_witness :
    exampleWorldGpuBusy.app.processingMode = .GPU_MODE ∧ exampleFrame.empty = false ∧
      uniformCalls exampleWorldGpuBusy.app =
        [(.filterMode, .int 1), (.pixelSize, .int 10), (.uTranslateX, .float (1 / 4)),
         (.uTranslateY, .float (-1 / 2)), (.uRotation, .float (4392265 / 8388608)),
         (.uScale, .float 2)] ∧
      ∃ up, uploadFrame exampleCv exampleWorldGpuBusy.app exampleFrame = some up ∧
        up.rows = 3 ∧ up.cols = 5 ∧
        up.px 0 0 0 = 220 ∧ up.px 1 3 1 = 113 ∧ up.px 2 4 2 = 4 := by
  have h := C2_gpu_mode_mirrors_state exampleCv exampleFrame [] exampleWorldGpuBusy rfl rfl
  refine ⟨rfl, rfl, ?_, _, h.2.2.2.2.2.1, rfl, rfl, ?_, ?_, ?_⟩
  · rw [h.1]
    decide!
  · rw [(h.2.2.2.2.2.2.2.2.1 0 0).1]; decide
  · rw [(h.2.2.2.2.2.2.2.2.1 1 3).2.1]; decide
  · rw [(h.2.2.2.2.2.2.2.2.1 2 4).2.2]; decide

/-- C3: for a tile size of at least 1, `applyPixelationCPU` returns a frame of the same
size in which the pixel at `(x, y)` holds, in every channel, the 8-bit mean of the input
pixels of its grid-aligned tile, the tile starting at `(tx, ty)` being clipped to
`min pixelSize (cols - tx)` by `min pixelSize (rows - ty)`; when the tile size divides
both dimensions every tile is a full `pixelSize` by `pixelSize` block. For 8-bit input the
stored sample `m` is a nearest integer to the tile mean `S / n`: `|2 S - 2 n m| ≤ n`. -/
theorem C3_pixelation_tile_means (frame : Mat) (pixelSize : Nat) (hp : 1 ≤ pixelSize) :
    ∃ out, applyPixelationCPU frame pixelSize = some out ∧
      out.rows = frame.rows ∧ out.cols = frame.cols ∧
      (∀ y x c, y < frame.rows → x < frame.cols →
        out.px y x c =
          meanSample
            (roiSum frame (x / pixelSize * pixelSize) (y / pixelSize * pixelSize)
              (min pixelSize (frame.cols - x / pixelSize * pixelSize))
              (min pixelSize (frame.rows - y / pixelSize * pixelSize)) c)
            (min pixelSize (frame.cols - x / pixelSize * pixelSize)
              * min pixelSize (frame.rows - y / pixelSize * pixelSize))) ∧
      (pixelSize ∣ frame.cols → pixelSize ∣ frame.rows →
        ∀ y x c, y < frame.rows → x < frame.cols →
          out.px y x c =
            meanSample
              (roiSum frame (x / pixelSize * pixelSize) (y / pixelSize * pixelSize)
                pixelSize pixelSize c)
              (pixelSize * pixelSize)) ∧
      (∀ c, (∀ y x, y < frame.rows → x < frame.cols → frame.px y x c ≤ 255) →
        ∀ y x, y < frame.rows → x < frame.cols →
          2 * roiSum frame (x / pixelSize * pixelSize) (y / pixelSize * pixelSize)
                (min pixelSize (frame.cols - x / pixelSize * pixelSize))
                (min pixelSize (frame.rows - y / pixelSize * pixelSize)) c
              ≤ 2 * (min pixelSize (frame.cols - x / pixelSize * pixelSize)
                      * min pixelSize (frame.rows - y / pixelSize * pixelSize)
                      * out.px y x c)
                + min pixelSize (frame.cols - x / pixelSize * pixelSize)
                    * min pixelSize (frame.rows - y / pixelSize * pixelSize) ∧
            2 * (min pixelSize (frame.cols - x / pixelSize * pixelSize)
                    * min pixelSize (frame.rows - y / pixelSize * pixelSize)
                    * out.px y x c)
              ≤ 2 * roiSum frame (x / pixelSize * pixelSize) (y / pixelSize * pixelSize)
                    (min pixelSize (frame.cols - x / pixelSize * pixelSize))
                    (min pixelSize (frame.rows - y / pixelSize * pixelSize)) c
                + min pixelSize (frame.cols - x / pixelSize * pixelSize)
                    * min pixelSize (frame.rows - y / pixelSize * pixelSize)) := by
  refine ⟨tileMeanImage frame pixelSize, applyPixelationCPU_eq frame pixelSize hp, rfl, rfl,
    ?_, ?_, ?_⟩
  · intro y x c hy hx
    exact tileMeanImage_px frame pixelSize y x c hy hx
  · intro hc hr y x c hy hx
    rw [tileMeanImage_px frame pixelSize y x c hy hx, fullTile hp hc hx, fullTile hp hr hy]
  · intro c h8 y x hy hx
    exact tileMeanImage_nearest frame pixelSize y x c hp hy hx h8

/-- C3 at the 3 by 5 example frame with tile size 2 (clipped tiles at the right and
bottom border, nearest-integer bound in channel 0) and at the 4 by 6 example frame
(full tiles). -/
theorem C3_pixelation_tile_means_witness :
    1 ≤ 2 ∧
      (∃ out, applyPixelationCPU exampleFrame 2 = some out ∧
        out.rows = exampleFrame.rows ∧ out.cols = exampleFrame.cols ∧
        out.px 0 0 0 = 6 ∧ out.px 1 1 0 = 6 ∧ out.px 2 4 1 = 124 ∧
        2 * 22 ≤ 2 * (2 * 2 * out.px 0 0 0) + 2 * 2) ∧
      ∃ out, applyPixelationCPU exampleFrameEven 2 = some out ∧ out.px 3 5 2 = 231 := by
  refine ⟨by decide, ?_, ?_⟩
  · obtain ⟨out, hrun, hr, hc, hpx, -, hnear⟩ :=
      C3_pixelation_tile_means exampleFrame 2 (by decide)
    refine ⟨out, hrun, hr, hc, ?_, ?_, ?_, ?_⟩
    · rw [hpx 0 0 0 (by decide) (by decide)]; decide
    · rw [hpx 1 1 0 (by decide) (by decide)]; decide
    · rw [hpx 2 4 1 (by decide) (by decide)]; decide
    · have h8 : ∀ y x, y < exampleFrame.rows → x < exampleFrame.cols →
          exampleFrame.px y x 0 ≤ 255 := by
        intro y x hy hx
        simp only [exampleFrame] at hy hx ⊢
        omega
      exact (hnear 0 h8 0 0 (by decide) (by decide)).1
  · obtain ⟨out, hrun, -, -, -, hfull, -⟩ :=
      C3_pixelation_tile_means exampleFrameEven 2 (by decide)
    refine ⟨out, hrun, ?_⟩
    rw [hfull (by decide) (by decide) 3 5 2 (by decide) (by decide)]
    decide

/-- C4: for a tile size of at least 1 and every frame, whatever its dimensions,
`applyPixelationCPU` returns, and applying it to its own output returns that output. -/
theorem C4_pixelation_idempotent (frame : Mat) (pixelSize : Nat) (hp : 1 ≤ pixelSize) :
    ∃ out, applyPixelationCPU frame pixelSize = some out ∧
      applyPixelationCPU out pixelSize = some out := by
  refine ⟨tileMeanImage frame pixelSize, applyPixelationCPU_eq frame pixelSize hp, ?_⟩
  rw [applyPixelationCPU_eq _ pixelSize hp, tileMeanImage_idem frame pixelSize hp]

/-- C4 at the 3 by 5 example frame (dimensions not multiples of the tile size 2). -/
theorem C4_pixelation_idempotent_witness :
    1 ≤ 2 ∧ ∃ out, applyPixelationCPU exampleFrame 2 = some out ∧
      applyPixelationCPU out 2 = some out :=
  ⟨by decide, C4_pixelation_idempotent exampleFrame 2 (by decide)⟩

/-- C5: when the luminance weights sum to one (to `2 ^ shift` in fixed point),
`applyGrayscaleCPU` applied twice equals `applyGrayscaleCPU` applied once: after one
application every channel of a pixel holds the luminance of the input pixel, and the
luminance of a pixel with three equal channels `v` is `v`. -/
theorem C5_grayscale_idempotent (k : GrayCoeffs) (frame : Mat)
    (hk : k.b2y + k.g2y + k.r2y = 2 ^ k.shift) (hs : 1 ≤ k.shift) :
    applyGrayscaleCPU k (applyGrayscaleCPU k frame) = applyGrayscaleCPU k frame ∧
      (∀ y x c, (applyGrayscaleCPU k frame).px y x c =
        luminance k (frame.px y x 0) (frame.px y x 1) (frame.px y x 2)) ∧
      ∀ v, luminance k v v v = v := by
  refine ⟨?_, fun y x c => rfl, luminance_gray k hk hs⟩
  apply Mat.ext_px (applyGrayscaleCPU k (applyGrayscaleCPU k frame)) (applyGrayscaleCPU k frame)
    rfl rfl
  intro y x c
  have e : ∀ c1, (applyGrayscaleCPU k frame).px y x c1 = (applyGrayscaleCPU k frame).px y x c :=
    fun _ => rfl
  rw [applyGrayscaleCPU_px k (applyGrayscaleCPU k frame), e 0, e 1, e 2,
    luminance_gray k hk hs]

/-- C5 at the 14-bit weights of OpenCV and the example frame. -/
theorem C5_grayscale_idempotent_witness :
    GrayCoeffs.opencv14.b2y + GrayCoeffs.opencv14.g2y + GrayCoeffs.opencv14.r2y
        = 2 ^ GrayCoeffs.opencv14.shift ∧
      1 ≤ GrayCoeffs.opencv14.shift ∧
      applyGrayscaleCPU GrayCoeffs.opencv14 (applyGrayscaleCPU GrayCoeffs.opencv14 exampleFrame)
        = applyGrayscaleCPU GrayCoeffs.opencv14 exampleFrame :=
  ⟨by decide, by decide,
    (C5_grayscale_idempotent GrayCoeffs.opencv14 exampleFrame (by decide) (by decide)).1⟩

/-- C6 (as amended): from the initial state (scale 1), after every finite sequence of
key, mouse-button, cursor and scroll events the scale lies in `[0.1, 5]`; a scroll event
with vertical offset `d` sets the scale, dragging or not, to `min (max s 0.1f) 5`, where
`0.1f` is the float `13421773 / 134217728` and `s` is the `double` sum `scale + d * 0.1f`
converted to `float`. -/
theorem C6_scale_clamped (garbage : Vec2) (events : List (Window × Event)) :
    (1 / 10 ≤ (pollEvents ⟨AppState.initial garbage, false⟩ events).app.scale ∧
      (pollEvents ⟨AppState.initial garbage, false⟩ events).app.scale ≤ 5) ∧
    ∀ (g : Globals) (w : Window) (xoffset d : ℚ),
      (dispatch g (w, .scroll xoffset d)).app.scale
        = min (max (roundToFloat (roundToDouble
                (g.app.scale + roundToDouble (d * (13421773 / 134217728)))))
              (13421773 / 134217728)) 5 := by
  constructor
  · apply pollEvents_scaleInRange events ⟨AppState.initial garbage, false⟩
    show (1 / 10 : ℚ) ≤ 1 ∧ (1 : ℚ) ≤ 5
    norm_num
  · intro g w xoffset d
    show (scrollCallback g.app xoffset d).scale = _
    rw [scrollCallback_scale]

/-- C6 (as amended) at concrete scrolls: from scale 1 an offset of 1 gives
`9227469 / 8388608`, an offset of -100 gives `0.1f`, an offset of 100 gives 5, also during
a drag; from scale 5 an offset of -40 gives `16777215 / 16777216` (the product is not
rounded to `float`); after the offsets 3 and -3 the scale is in range. -/
theorem C6_scale_clamped_witness :
    (dispatch ⟨AppState.initial ⟨0, 0⟩, false⟩ (exampleWindow, .scroll 0 1)).app.scale
        = 9227469 / 8388608 ∧
      (dispatch ⟨AppState.initial ⟨0, 0⟩, false⟩ (exampleWindow, .scroll 0 (-100))).app.scale
        = 13421773 / 134217728 ∧
      (dispatch ⟨exampleDragging, false⟩ (exampleWindow, .scroll 0 100)).app.scale = 5 ∧
      (dispatch ⟨{ exampleDragging with scale := 5 }, false⟩
          (exampleWindow, .scroll 0 (-40))).app.scale = 16777215 / 16777216 ∧
      1 / 10 ≤ (pollEvents ⟨AppState.initial ⟨0, 0⟩, false⟩
          [(exampleWindow, .scroll 0 3), (exampleWindow, .scroll 0 (-3))]).app.scale :=
  ⟨((C6_scale_clamped ⟨0, 0⟩ []).2 ⟨AppState.initial ⟨0, 0⟩, false⟩ exampleWindow 0 1).trans
      (by decide!),
    ((C6_scale_clamped ⟨0, 0⟩ []).2 ⟨AppState.initial ⟨0, 0⟩, false⟩ exampleWindow 0
      (-100)).trans (by decide!),
    ((C6_scale_clamped ⟨0, 0⟩ []).2 ⟨exampleDragging, false⟩ exampleWindow 0 100).trans
      (by decide!),
    ((C6_scale_clamped ⟨0, 0⟩ []).2 ⟨{ exampleDragging with scale := 5 }, false⟩
      exampleWindow 0 (-40)).trans (by decide!),
    (C6_scale_clamped ⟨0, 0⟩
      [(exampleWindow, .scroll 0 3), (exampleWindow, .scroll 0 (-3))]).1.1⟩

/-- C6 as stated fails: from scale 1 a scroll with offset 1 stores the float
`9227469 / 8388608`, not `clamp (1 + 0.1 * 1) 0.1 5 = 11 / 10`; and the offsets 3 and -3
in a row leave `16777215 / 16777216`, not 1. -/
theorem C6_scroll_sum_is_rounded :
    (dispatch ⟨AppState.initial ⟨0, 0⟩, false⟩ (exampleWindow, .scroll 0 1)).app.scale
        = 9227469 / 8388608 ∧
      (dispatch ⟨AppState.initial ⟨0, 0⟩, false⟩ (exampleWindow, .scroll 0 1)).app.scale
        ≠ min (max ((AppState.initial ⟨0, 0⟩).scale + 1 / 10 * 1) (1 / 10)) 5 ∧
      (pollEvents ⟨AppState.initial ⟨0, 0⟩, false⟩
          [(exampleWindow, .scroll 0 3), (exampleWindow, .scroll 0 (-3))]).app.scale
        = 16777215 / 16777216 := by
  refine ⟨by decide!, by decide!, by decide!⟩

/-- C8: a press of Space sets translation to `(0, 0)`, rotation to 0 and scale to 1 in
every state, dragging or not, and leaves filter, processing mode and drag mode (and the
close flag) as they were. -/
theorem C8_reset_key (app : AppState) (shouldClose : Bool) (scancode mods : Int) :
    (keyCallback app shouldClose GLFW_KEY_SPACE scancode GLFW_PRESS mods).1.translation
        = Vec2.zero ∧
      (keyCallback app shouldClose GLFW_KEY_SPACE scancode GLFW_PRESS mods).1.rotation = 0 ∧
      (keyCallback app shouldClose GLFW_KEY_SPACE scancode GLFW_PRESS mods).1.scale = 1 ∧
      (keyCallback app shouldClose GLFW_KEY_SPACE scancode GLFW_PRESS mods).1.currentFilter
        = app.currentFilter ∧
      (keyCallback app shouldClose GLFW_KEY_SPACE scancode GLFW_PRESS mods).1.processingMode
        = app.processingMode ∧
      (keyCallback app shouldClose GLFW_KEY_SPACE scancode GLFW_PRESS mods).1.isDragging
        = app.isDragging ∧
      (keyCallback app shouldClose GLFW_KEY_SPACE scancode GLFW_PRESS mods).2 = shouldClose := by
  have h : keyCallback app shouldClose GLFW_KEY_SPACE scancode GLFW_PRESS mods
      = ({ app with translation := Vec2.zero, rotation := 0, scale := 1 }, shouldClose) := by
    unfold keyCallback
    simp [GLFW_KEY_SPACE, GLFW_PRESS, GLFW_KEY_ESCAPE, GLFW_KEY_1, GLFW_KEY_2, GLFW_KEY_3,
      GLFW_KEY_C]
  rw [h]
  exact ⟨rfl, rfl, rfl, rfl, rfl, rfl, rfl⟩

/-- C9: in CPU mode with translation `(0, 0)`, rotation 0 and scale 1 the warp is not
applied: the processed frame is the output of the selected filter alone, and the input
frame itself when the filter is `FILTER_NONE`. -/
theorem C9_neutral_transform_skips_warp (cv : OpenCV) (app : AppState) (frame : Mat)
    (hcpu : app.processingMode = .CPU_MODE) (ht : app.translation = Vec2.zero)
    (hr : app.rotation = 0) (hs : app.scale = 1) :
    processFrame cv app frame =
        (match app.currentFilter with
          | .FILTER_PIXELATE => applyPixelationCPU frame 10
          | .FILTER_GRAYSCALE => some (applyGrayscaleCPU cv.gray frame)
          | .FILTER_NONE => some frame) ∧
      (app.currentFilter = .FILTER_NONE → processFrame cv app frame = some frame) ∧
      ∃ out, processFrame cv app frame = some out := by
  have hmain : processFrame cv app frame =
      (match app.currentFilter with
        | .FILTER_PIXELATE => applyPixelationCPU frame 10
        | .FILTER_GRAYSCALE => some (applyGrayscaleCPU cv.gray frame)
        | .FILTER_NONE => some frame) := by
    unfold processFrame
    simp only [hcpu, ht, hr, hs, if_true, ne_eq, not_true_eq_false, or_self, if_false]
    cases app.currentFilter with
    | FILTER_PIXELATE => simp only [applyPixelationCPU_eq frame 10 (by decide)]
    | FILTER_GRAYSCALE => rfl
    | FILTER_NONE => rfl
  refine ⟨hmain, ?_, processFrame_isSome cv app frame⟩
  intro hnone
  rw [hmain, hnone]

/-- C9 at the example frame with the pixelation filter selected. -/
theorem C9_neutral_transform_skips_warp_witness :
    ({ exampleDragging with currentFilter := .FILTER_PIXELATE } : AppState).processingMode
        = .CPU_MODE ∧
      processFrame exampleCv { exampleDragging with currentFilter := .FILTER_PIXELATE }
        exampleFrame = applyPixelationCPU exampleFrame 10 :=
  ⟨rfl, (C9_neutral_transform_skips_warp exampleCv
    { exampleDragging with currentFilter := .FILTER_PIXELATE } exampleFrame rfl rfl rfl rfl).1⟩

/-- C10: `Texture::update` with the width and height of the existing allocation keeps
`textureID`, generates no texture name, allocates no image and raises no error: it
overwrites the pixels of the existing image in place and leaves its size and every
other texture untouched. -/
theorem C10_update_in_place (t : Texture) (gl : GLContext) (data : Nat → Nat → Nat → Nat)
    (width height : Nat) (rgb : Bool) (im : TexImage)
    (him : gl.images t.textureID = some im) (hw : im.width = width)
    (hh : im.height = height) :
    (t.update gl data width height rgb).1.textureID = t.textureID ∧
      (t.update gl data width height rgb).2.generated = gl.generated ∧
      (t.update gl data width height rgb).2.allocations = gl.allocations ∧
      (t.update gl data width height rgb).2.error = gl.error ∧
      (∃ im1, (t.update gl data width height rgb).2.images t.textureID = some im1 ∧
        im1.width = width ∧ im1.height = height ∧
        ∀ y x c, y < height → x < width → im1.px y x c = data y x c) ∧
      ∀ id, id ≠ t.textureID →
        (t.update gl data width height rgb).2.images id = gl.images id := by
  subst hw; subst hh
  have hupd : (t.update gl data im.width im.height rgb).2 =
      { gl with
        bound := t.textureID
        images := fun id =>
          if id = t.textureID then
            some { im with px := fun y x c => if y < im.height ∧ x < im.width then data y x c
                                              else im.px y x c }
          else gl.images id } := by
    simp only [Texture.update, glTexSubImage2D, glBindTexture, him, le_refl, and_self, if_true]
  rw [hupd]
  refine ⟨rfl, rfl, rfl, rfl, ⟨_, if_pos rfl, rfl, rfl, ?_⟩, ?_⟩
  · intro y x c hy hx
    simp only [hy, hx, and_self, if_true]
  · intro id hid
    simp only [hid, if_false]

/-- C10 at the texture created from the example frame, updated with a frame of the
same size. -/
theorem C10_update_in_place_witness :
    (exampleTexture.1.update exampleTexture.2 (flip exampleFrame).px 5 3 true).1.textureID
        = exampleTexture.1.textureID ∧
      (exampleTexture.1.update exampleTexture.2 (flip exampleFrame).px 5 3 true).2.allocations
        = exampleTexture.2.allocations :=
  have h := C10_update_in_place exampleTexture.1 exampleTexture.2 (flip exampleFrame).px 5 3
    true ⟨5, 3, true, exampleFrame.px⟩ rfl rfl rfl
  ⟨h.1, h.2.2.1⟩

/-- C11 (as amended): `Texture::update` makes no dimension check of its own. For a texture
whose image is `w` by `h`, a region that fits (`width ≤ w` and `height ≤ h`, equal or not)
is written into the existing image and no error is raised; a region that does not fit
raises `GL_INVALID_VALUE` and leaves every image as it was. In both cases the call
returns with the same `textureID` and without a new name or allocation. -/
theorem C11_update_mismatch_unchecked (t : Texture) (gl : GLContext)
    (data : Nat → Nat → Nat → Nat) (width height : Nat) (rgb : Bool) (im : TexImage)
    (him : gl.images t.textureID = some im) :
    (t.update gl data width height rgb).1.textureID = t.textureID ∧
      (t.update gl data width height rgb).2.generated = gl.generated ∧
      (t.update gl data width height rgb).2.allocations = gl.allocations ∧
      (width ≤ im.width ∧ height ≤ im.height →
        (t.update gl data width height rgb).2.error = gl.error ∧
        ∃ im1, (t.update gl data width height rgb).2.images t.textureID = some im1 ∧
          im1.width = im.width ∧ im1.height = im.height ∧
          (∀ y x c, y < height → x < width → im1.px y x c = data y x c) ∧
          ∀ y x c, ¬(y < height ∧ x < width) → im1.px y x c = im.px y x c) ∧
      (¬(width ≤ im.width ∧ height ≤ im.height) →
        (t.update gl data width height rgb).2.images = gl.images ∧
        (t.update gl data width height rgb).2.error
          = some (gl.error.getD .GL_INVALID_VALUE)) := by
  refine ⟨rfl, ?_, ?_, ?_, ?_⟩
  · by_cases hfit : width ≤ im.width ∧ height ≤ im.height
    · rw [update_fits t gl data width height rgb im him hfit]
    · rw [update_too_large t gl data width height rgb im him hfit]
  · by_cases hfit : width ≤ im.width ∧ height ≤ im.height
    · rw [update_fits t gl data width height rgb im him hfit]
    · rw [update_too_large t gl data width height rgb im him hfit]
  · intro hfit
    rw [update_fits t gl data width height rgb im him hfit]
    refine ⟨rfl, _, if_pos rfl, rfl, rfl, ?_, ?_⟩
    · intro y x c hy hx
      simp only [hy, hx, and_self, if_true]
    · intro y x c hout
      simp only [hout, if_false]
  · intro hfit
    rw [update_too_large t gl data width height rgb im him hfit]
    exact ⟨rfl, rfl⟩

/-- C11 (as amended) at the 5 by 3 example texture: a 4 by 3 update raises no error, a
6 by 3 update raises `GL_INVALID_VALUE`. -/
theorem C11_update_mismatch_unchecked_witness :
    exampleTexture.2.images exampleTexture.1.textureID
        = some ⟨5, 3, true, exampleFrame.px⟩ ∧
      (exampleTexture.1.update exampleTexture.2 exampleFrameEven.px 4 3 true).2.error = none ∧
      (exampleTexture.1.update exampleTexture.2 exampleFrameEven.px 6 3 true).2.error
        = some .GL_INVALID_VALUE :=
  ⟨rfl,
    ((C11_update_mismatch_unchecked exampleTexture.1 exampleTexture.2 exampleFrameEven.px 4 3
      true ⟨5, 3, true, exampleFrame.px⟩ rfl).2.2.2.1 (by decide)).1,
    ((C11_update_mismatch_unchecked exampleTexture.1 exampleTexture.2 exampleFrameEven.px 6 3
      true ⟨5, 3, true, exampleFrame.px⟩ rfl).2.2.2.2 (by decide)).2⟩

/-- C11 as stated fails: the example texture is allocated 5 by 3; an update with the
different size 4 by 2 raises no error and writes its data into the existing image (the
sample at row 1, column 1, channel 0 changes from 11 to 10), whose size stays 5 by 3 and
whose pixels outside the region stay (24 at row 2, column 4). -/
theorem C11_mismatched_update_writes :
    ((4 : Nat), (2 : Nat)) ≠ (5, 3) ∧
      (exampleTexture.1.update exampleTexture.2 exampleFrameEven.px 4 2 true).2.error = none ∧
      ∃ before after,
        exampleTexture.2.images exampleTexture.1.textureID = some before ∧
        (exampleTexture.1.update exampleTexture.2 exampleFrameEven.px 4 2 true).2.images
          exampleTexture.1.textureID = some after ∧
        before.width = 5 ∧ before.height = 3 ∧ after.width = 5 ∧ after.height = 3 ∧
        before.px 1 1 0 = 11 ∧ after.px 1 1 0 = 10 ∧ after.px 2 4 0 = 24 :=
  ⟨by decide, rfl, _, _, rfl, rfl, rfl, rfl, rfl, rfl, by decide, by decide, by decide⟩

/-- C12: an iteration whose captured frame is empty returns, leaves the OpenGL context
(texture contents included), the texture object and the uniforms as they were, whatever
the filters are, makes one `render` call, and asks the window to close only if a polled
event does: from a state that is not closing the loop goes on with the next iteration. -/
theorem C12_empty_frame_skips_update (cv : OpenCV) (frame : Mat)
    (events : List (Window × Event)) (w : World) (hempty : frame.empty = true) :
    ∃ w1, iteration cv frame events w = some w1 ∧
      (∀ cv2, iteration cv2 frame events w = some w1) ∧
      w1.gl = w.gl ∧ w1.videoTexture = w.videoTexture ∧ w1.uniforms = w.uniforms ∧
      w1.renders = w.renders + 1 ∧
      w1.shouldClose = (pollEvents ⟨w.app, w.shouldClose⟩ events).shouldClose ∧
      (events = [] → w1.shouldClose = w.shouldClose) ∧
      ∀ rest, w.shouldClose = false →
        renderLoop cv ((frame, events) :: rest) w = renderLoop cv rest w1 := by
  refine ⟨_, iteration_of_empty cv frame events w hempty,
    fun cv2 => iteration_of_empty cv2 frame events w hempty, rfl, rfl, rfl, rfl, rfl, ?_, ?_⟩
  · intro hev
    rw [hev]
    rfl
  · intro rest hopen
    simp only [renderLoop, hopen, Bool.false_eq_true, if_false,
      iteration_of_empty cv frame events w hempty]

/-- C12 at the empty frame, with no event polled, in the CPU-mode example state. -/
theorem C12_empty_frame_skips_update_witness :
    emptyFrame.empty = true ∧
      ∃ w1, iteration exampleCv emptyFrame [] exampleWorldCpu = some w1 ∧
        w1.renders = 1 ∧ w1.shouldClose = false := by
  obtain ⟨w1, hrun, -, -, -, -, hr, -, hc, -⟩ :=
    C12_empty_frame_skips_update exampleCv emptyFrame [] exampleWorldCpu rfl
  exact ⟨rfl, w1, hrun, hr, hc rfl⟩

/-- C13 (as amended): when the camera does not open, GLFW does not initialise, the window
is not created, the GL functions do not load or the first frame is empty, `main` returns
-1 without a single loop iteration. A shader failure is only printed: with the other
steps succeeding `main` enters the render loop whatever the shader environment. It then
holds program 0 and the diagnostic of the first file that did not open; or, both files
opening, the program `glCreateProgram` returned together with one diagnostic for each of
the vertex compilation, the fragment compilation and the linking that failed, in this
order, and none if all three succeeded. -/
theorem C13_startup_failures (env : MainEnv) :
    ((env.cameraOpened = false ∨ env.glfwInitOk = false ∨ env.windowCreated = false ∨
        env.gladLoaded = false ∨ env.firstFrame.empty = true) →
      startup env = .error (-1) ∧ ∀ inputs, main env inputs = some ⟨-1, 0⟩) ∧
    ((env.cameraOpened = true ∧ env.glfwInitOk = true ∧ env.windowCreated = true ∧
        env.gladLoaded = true ∧ env.firstFrame.empty = false) →
      (∃ started, startup env = .ok started ∧
        started.textureShader = (Shader.create env.shader).1 ∧
        started.log = (Shader.create env.shader).2 ∧
        started.world.shouldClose = false ∧ started.world.renders = 0) ∧
      ((env.shader.vertexFileOpens = false ∨ env.shader.fragmentFileOpens = false) →
        (Shader.create env.shader).1.programID = 0 ∧ (Shader.create env.shader).2 ≠ [])) ∧
    (env.shader.vertexFileOpens = false →
      Shader.create env.shader = (⟨0⟩, [.vertexOpenFailed])) ∧
    (env.shader.vertexFileOpens = true → env.shader.fragmentFileOpens = false →
      Shader.create env.shader = (⟨0⟩, [.fragmentOpenFailed])) ∧
    (env.shader.vertexFileOpens = true → env.shader.fragmentFileOpens = true →
      (Shader.create env.shader).1.programID = env.shader.program ∧
      (Shader.create env.shader).2 =
        (if env.shader.vertexCompiles then [] else [.vertexCompileFailed])
          ++ (if env.shader.fragmentCompiles then [] else [.fragmentCompileFailed])
          ++ (if env.shader.links then [] else [.linkFailed]) ∧
      (env.shader.vertexCompiles = false →
        ShaderMessage.vertexCompileFailed ∈ (Shader.create env.shader).2) ∧
      (env.shader.fragmentCompiles = false →
        ShaderMessage.fragmentCompileFailed ∈ (Shader.create env.shader).2) ∧
      (env.shader.links = false →
        ShaderMessage.linkFailed ∈ (Shader.create env.shader).2)) := by
  refine ⟨?_, ?_, ?_, ?_, ?_⟩
  · intro h
    have he := startup_error env h
    refine ⟨he, fun inputs => ?_⟩
    unfold main
    rw [he]
  · intro h
    refine ⟨⟨_, startup_ok env h.1 h.2.1 h.2.2.1 h.2.2.2.1 h.2.2.2.2, rfl, rfl, rfl, rfl⟩, ?_⟩
    intro hs
    unfold Shader.create loadShaders
    cases hv : env.shader.vertexFileOpens
    · simp
    · rcases hs with hs | hs
      · rw [hv] at hs; exact absurd hs (by decide)
      · simp [hs]
  · intro hv
    unfold Shader.create loadShaders
    simp [hv]
  · intro hv hf
    unfold Shader.create loadShaders
    simp [hv, hf]
  · intro hv hf
    have hlog : Shader.create env.shader =
        (⟨env.shader.program⟩,
          (if env.shader.vertexCompiles then [] else [.vertexCompileFailed])
            ++ (if env.shader.fragmentCompiles then [] else [.fragmentCompileFailed])
            ++ (if env.shader.links then [] else [.linkFailed])) := by
      unfold Shader.create loadShaders
      cases hvc : env.shader.vertexCompiles <;> cases hfc : env.shader.fragmentCompiles <;>
        cases hl : env.shader.links <;> simp [hv, hf]
    rw [hlog]
    refine ⟨rfl, rfl, ?_, ?_, ?_⟩
    · intro h; simp [h]
    · intro h; simp [h]
    · intro h; simp [h]

/-- C13 (as amended) at an environment without camera (exit status -1, no iteration),
at one where only the vertex shader file is missing (program 0, the loop is entered) and
at one where only the fragment shader does not compile (program 3 is kept, the compile
and link diagnostics are printed, the loop is entered). -/
theorem C13_startup_failures_witness :
    exampleEnvNoCamera.cameraOpened = false ∧
      main exampleEnvNoCamera exampleInputs = some ⟨-1, 0⟩ ∧
      (Shader.create exampleEnvNoShaderFile.shader).1.programID = 0 ∧
      (∃ started, startup exampleEnvNoShaderFile = .ok started) ∧
      (Shader.create exampleEnvBadShader.shader).1.programID = 3 ∧
      (Shader.create exampleEnvBadShader.shader).2 = [.fragmentCompileFailed, .linkFailed] ∧
      ∃ started, startup exampleEnvBadShader = .ok started ∧
        started.textureShader.programID = 3 :=
  ⟨rfl,
    ((C13_startup_failures exampleEnvNoCamera).1 (Or.inl rfl)).2 exampleInputs,
    (((C13_startup_failures exampleEnvNoShaderFile).2.1 ⟨rfl, rfl, rfl, rfl, rfl⟩).2
      (Or.inl rfl)).1,
    (((C13_startup_failures exampleEnvNoShaderFile).2.1 ⟨rfl, rfl, rfl, rfl, rfl⟩).1).imp
      (fun _ h => h.1),
    ((C13_startup_failures exampleEnvBadShader).2.2.2.2 rfl rfl).1,
    ((C13_startup_failures exampleEnvBadShader).2.2.2.2 rfl rfl).2.1,
    by
      obtain ⟨started, hs, hshader, -⟩ :=
        ((C13_startup_failures exampleEnvBadShader).2.1 ⟨rfl, rfl, rfl, rfl, rfl⟩).1
      exact ⟨started, hs, by rw [hshader]; rfl⟩⟩

/-- C13 as stated fails: with the vertex shader file missing (program 0, a diagnostic
printed) and every other step succeeding, `main` runs a loop iteration, renders once and,
after Escape, returns exit status 0; the same happens when the fragment shader does not
compile. -/
theorem C13_shader_failure_enters_loop :
    exampleEnvNoShaderFile.shader.vertexFileOpens = false ∧
      Shader.create exampleEnvNoShaderFile.shader = (⟨0⟩, [.vertexOpenFailed]) ∧
      main exampleEnvNoShaderFile exampleInputs = some ⟨0, 1⟩ ∧
      exampleEnvBadShader.shader.fragmentCompiles = false ∧
      main exampleEnvBadShader exampleInputs = some ⟨0, 1⟩ :=
  ⟨rfl, by decide, by decide, rfl, by decide⟩

/-- C14: the drag flag is a two-state machine. A left-button press sets it and records
the cursor position, a left-button release clears it, and every other event (another
button, another action, any key, a cursor move, a scroll) leaves it as it was; while it
is clear a cursor move changes nothing of the state. -/
theorem C14_drag_state_machine (w : Window) (g : Globals) :
    (∀ mods,
      (dispatch g (w, .mouseButton GLFW_MOUSE_BUTTON_LEFT GLFW_PRESS mods)).app.isDragging
          = true ∧
        (dispatch g (w, .mouseButton GLFW_MOUSE_BUTTON_LEFT GLFW_PRESS mods)).app.lastMousePos
          = ⟨w.cursorX, w.cursorY⟩) ∧
      (∀ mods,
        (dispatch g (w, .mouseButton GLFW_MOUSE_BUTTON_LEFT GLFW_RELEASE mods)).app.isDragging
          = false) ∧
      (∀ button action mods,
        (button ≠ GLFW_MOUSE_BUTTON_LEFT ∨ (action ≠ GLFW_PRESS ∧ action ≠ GLFW_RELEASE)) →
          dispatch g (w, .mouseButton button action mods) = g) ∧
      (∀ key scancode action mods,
        (dispatch g (w, .key key scancode action mods)).app.isDragging = g.app.isDragging) ∧
      (∀ xpos ypos,
        (dispatch g (w, .cursorPos xpos ypos)).app.isDragging = g.app.isDragging) ∧
      (∀ xoffset yoffset,
        (dispatch g (w, .scroll xoffset yoffset)).app.isDragging = g.app.isDragging) ∧
      (g.app.isDragging = false → ∀ xpos ypos, dispatch g (w, .cursorPos xpos ypos) = g) := by
  refine ⟨fun mods => ⟨rfl, rfl⟩, fun mods => rfl, ?_, ?_, ?_, fun xoffset yoffset => rfl, ?_⟩
  · intro button action mods h
    show ({ g with app := mouseButtonCallback w g.app button action mods } : Globals) = g
    have hm : mouseButtonCallback w g.app button action mods = g.app := by
      unfold mouseButtonCallback
      rcases h with h | h
      · rw [if_neg h]
      · rw [if_neg h.1, if_neg h.2]
        split_ifs <;> rfl
    rw [hm]
  · intro key scancode action mods
    exact keyCallback_isDragging g.app g.shouldClose key scancode action mods
  · intro xpos ypos
    exact cursorPosCallback_isDragging w g.app xpos ypos
  · intro hidle xpos ypos
    show ({ g with app := cursorPosCallback w g.app xpos ypos } : Globals) = g
    have hc : cursorPosCallback w g.app xpos ypos = g.app := by
      unfold cursorPosCallback
      rw [hidle]
      rfl
    rw [hc]

/-- C14 at concrete states: a right-button press (button 1) and a cursor move while idle
change nothing, a left-button press starts the drag at the cursor position. -/
theorem C14_drag_state_machine_witness :
    exampleIdle.isDragging = false ∧
      dispatch ⟨exampleIdle, false⟩ (exampleWindow, .mouseButton 1 GLFW_PRESS 0)
        = ⟨exampleIdle, false⟩ ∧
      dispatch ⟨exampleIdle, false⟩ (exampleWindow, .cursorPos 300 200)
        = ⟨exampleIdle, false⟩ ∧
      (dispatch ⟨exampleIdle, false⟩
        (exampleWindow, .mouseButton GLFW_MOUSE_BUTTON_LEFT GLFW_PRESS 0)).app.lastMousePos
        = ⟨150, 100⟩ :=
  ⟨rfl,
    (C14_drag_state_machine exampleWindow ⟨exampleIdle, false⟩).2.2.1 1 GLFW_PRESS 0
      (Or.inl (by decide)),
    (C14_drag_state_machine exampleWindow ⟨exampleIdle, false⟩).2.2.2.2.2.2 rfl 300 200,
    ((C14_drag_state_machine exampleWindow ⟨exampleIdle, false⟩).1 0).2⟩

/-- C15: a press of C flips the processing mode (GPU to CPU, CPU to GPU), so two presses
give back the state; a press of 1, 2, 3 selects `FILTER_NONE`, `FILTER_PIXELATE`,
`FILTER_GRAYSCALE` whatever the filter was; these presses leave translation, rotation,
scale and the drag flag as they were; a release or repeat of any key changes nothing. -/
theorem C15_mode_and_filter_keys (app : AppState) (shouldClose : Bool) (scancode mods : Int) :
    ((keyCallback app shouldClose GLFW_KEY_C scancode GLFW_PRESS mods).1.processingMode
        = (match app.processingMode with
            | .GPU_MODE => .CPU_MODE
            | .CPU_MODE => .GPU_MODE)) ∧
      (keyCallback (keyCallback app shouldClose GLFW_KEY_C scancode GLFW_PRESS mods).1
          (keyCallback app shouldClose GLFW_KEY_C scancode GLFW_PRESS mods).2
          GLFW_KEY_C scancode GLFW_PRESS mods = (app, shouldClose)) ∧
      (keyCallback app shouldClose GLFW_KEY_1 scancode GLFW_PRESS mods).1.currentFilter
        = .FILTER_NONE ∧
      (keyCallback app shouldClose GLFW_KEY_2 scancode GLFW_PRESS mods).1.currentFilter
        = .FILTER_PIXELATE ∧
      (keyCallback app shouldClose GLFW_KEY_3 scancode GLFW_PRESS mods).1.currentFilter
        = .FILTER_GRAYSCALE ∧
      (∀ key, key = GLFW_KEY_C ∨ key = GLFW_KEY_1 ∨ key = GLFW_KEY_2 ∨ key = GLFW_KEY_3 →
        (keyCallback app shouldClose key scancode GLFW_PRESS mods).1.translation
            = app.translation ∧
          (keyCallback app shouldClose key scancode GLFW_PRESS mods).1.rotation
            = app.rotation ∧
          (keyCallback app shouldClose key scancode GLFW_PRESS mods).1.scale = app.scale ∧
          (keyCallback app shouldClose key scancode GLFW_PRESS mods).1.isDragging
            = app.isDragging ∧
          (keyCallback app shouldClose key scancode GLFW_PRESS mods).2 = shouldClose) ∧
      (∀ key, key = GLFW_KEY_1 ∨ key = GLFW_KEY_2 ∨ key = GLFW_KEY_3 →
        (keyCallback app shouldClose key scancode GLFW_PRESS mods).1.processingMode
          = app.processingMode) ∧
      ((keyCallback app shouldClose GLFW_KEY_C scancode GLFW_PRESS mods).1.currentFilter
        = app.currentFilter) ∧
      ∀ key action, action ≠ GLFW_PRESS →
        keyCallback app shouldClose key scancode action mods = (app, shouldClose) := by
  have hC : keyCallback app shouldClose GLFW_KEY_C scancode GLFW_PRESS mods
      = ({ app with processingMode :=
            if app.processingMode = .GPU_MODE then .CPU_MODE else .GPU_MODE },
          shouldClose) := by
    unfold keyCallback
    simp [GLFW_KEY_C, GLFW_PRESS, GLFW_KEY_ESCAPE, GLFW_KEY_1, GLFW_KEY_2, GLFW_KEY_3]
  have h1 : keyCallback app shouldClose GLFW_KEY_1 scancode GLFW_PRESS mods
      = ({ app with currentFilter := .FILTER_NONE }, shouldClose) := by
    unfold keyCallback
    simp [GLFW_PRESS, GLFW_KEY_ESCAPE, GLFW_KEY_1]
  have h2 : keyCallback app shouldClose GLFW_KEY_2 scancode GLFW_PRESS mods
      = ({ app with currentFilter := .FILTER_PIXELATE }, shouldClose) := by
    unfold keyCallback
    simp [GLFW_PRESS, GLFW_KEY_ESCAPE, GLFW_KEY_1, GLFW_KEY_2]
  have h3 : keyCallback app shouldClose GLFW_KEY_3 scancode GLFW_PRESS mods
      = ({ app with currentFilter := .FILTER_GRAYSCALE }, shouldClose) := by
    unfold keyCallback
    simp [GLFW_PRESS, GLFW_KEY_ESCAPE, GLFW_KEY_1, GLFW_KEY_2, GLFW_KEY_3]
  refine ⟨?_, ?_, by rw [h1], by rw [h2], by rw [h3], ?_, ?_, by rw [hC], ?_⟩
  · rw [hC]
    cases hm : app.processingMode <;> simp
  · rw [hC]
    unfold keyCallback
    simp only [GLFW_KEY_C, GLFW_PRESS, GLFW_KEY_ESCAPE, GLFW_KEY_1, GLFW_KEY_2, GLFW_KEY_3]
    cases app with
    | mk currentFilter processingMode translation rotation scale isDragging lastMousePos
        frameCount =>
      cases processingMode <;> simp
  · intro key hkey
    rcases hkey with hk | hk | hk | hk <;> subst hk
    · rw [hC]; exact ⟨rfl, rfl, rfl, rfl, rfl⟩
    · rw [h1]; exact ⟨rfl, rfl, rfl, rfl, rfl⟩
    · rw [h2]; exact ⟨rfl, rfl, rfl, rfl, rfl⟩
    · rw [h3]; exact ⟨rfl, rfl, rfl, rfl, rfl⟩
  · intro key hkey
    rcases hkey with hk | hk | hk <;> subst hk
    · rw [h1]
    · rw [h2]
    · rw [h3]
  · intro key action haction
    exact keyCallback_not_press app shouldClose key scancode action mods haction

/-- C15 at the dragging CPU-mode example state: C selects GPU mode and keeps the drag, a
release of C changes nothing. -/
theorem C15_mode_and_filter_keys_witness :
    (keyCallback exampleDragging false GLFW_KEY_C 0 GLFW_PRESS 0).1.processingMode
        = .GPU_MODE ∧
      (keyCallback exampleDragging false GLFW_KEY_C 0 GLFW_PRESS 0).1.isDragging = true ∧
      keyCallback exampleDragging false GLFW_KEY_C 0 GLFW_RELEASE 0
        = (exampleDragging, false) :=
  ⟨(C15_mode_and_filter_keys exampleDragging false 0 0).1,
    ((C15_mode_and_filter_keys exampleDragging false 0 0).2.2.2.2.2.1 GLFW_KEY_C
      (Or.inl rfl)).2.2.2.1,
    (C15_mode_and_filter_keys exampleDragging false 0 0).2.2.2.2.2.2.2.2 GLFW_KEY_C
      GLFW_RELEASE (by decide)⟩

end VideoApp
